import Mathlib

/-!
# The `zbd` command line tool (tools/zbd/zbd.c)

A shallow embedding of `zbd.c`: option parsing, the unit / offset / length
checks of `main`, the two actions `zbd_report` and `zbd_mgmt`, and the zone
printer.  Calls into libzbd, writes to the two output streams and the value
returned by `main` are recorded explicitly, so that properties of the form
"no zone operation is requested unless ..." can be stated on the trace of a
run.

C integers are `Int` / `Nat` with explicit reduction: `long long` values are
wrapped to the signed 64-bit range, `unsigned long long` and `size_t` values
are taken modulo `2 ^ 64`, `unsigned int` values modulo `2 ^ 32`.
-/

namespace Zbd

/-! ## Machine integers -/

/-- Reduction of an integer to the range of `long long` (two's complement). -/
def wrap64 (x : Int) : Int := (x + 2 ^ 63) % 2 ^ 64 - 2 ^ 63

/-- Conversion of a `long long` to `unsigned long long` / `size_t`. -/
def u64 (x : Int) : Nat := (x % 2 ^ 64).toNat

/-- Truncation of an unsigned value to `unsigned int`. -/
def u32 (n : Nat) : Nat := n % 2 ^ 32

/-! ## Types of `libzbd/zbd.h` and of `zbd.c` -/

/-- The commands, `enum zbd_cmd`. -/
inductive zbd_cmd where
  | ZBD_REPORT
  | ZBD_RESET
  | ZBD_OPEN
  | ZBD_CLOSE
  | ZBD_FINISH
  deriving DecidableEq, Repr

/-- Modelled from the spec: `enum zbd_report_option` of `libzbd/zbd.h`, the
"all zones" default and the ten report filters named by the `-ro` codes. -/
inductive zbd_report_option where
  | ZBD_RO_ALL
  | ZBD_RO_EMPTY
  | ZBD_RO_IMP_OPEN
  | ZBD_RO_EXP_OPEN
  | ZBD_RO_CLOSED
  | ZBD_RO_FULL
  | ZBD_RO_RDONLY
  | ZBD_RO_OFFLINE
  | ZBD_RO_RWP_RECOMMENDED
  | ZBD_RO_NON_SEQ
  | ZBD_RO_NOT_WP
  deriving DecidableEq, Repr

/-- Modelled from the spec: `struct zbd_info` of `libzbd/zbd.h` (device
geometry).  `nr_sectors` and `zone_size` are `unsigned long long`, `nr_zones`
is `unsigned int`; the remaining fields are only ever printed and are kept
together in `other`. -/
structure zbd_info where
  nr_sectors : Nat
  zone_size : Nat
  nr_zones : Nat
  other : List Nat
  deriving DecidableEq, Repr

/-- Modelled from the spec: `struct zbd_zone` of `libzbd/zbd.h` with its
accessors `zbd_zone_start`, `zbd_zone_len`, `zbd_zone_capacity`,
`zbd_zone_wp`, `zbd_zone_type`, `zbd_zone_cond`, and the two flag tests
`zbd_zone_non_seq_resources` and `zbd_zone_rwp_recommended`. -/
structure zbd_zone where
  start : Nat
  len : Nat
  capacity : Nat
  wp : Nat
  type : Nat
  cond : Nat
  non_seq_resources : Bool
  rwp_recommended : Bool
  deriving DecidableEq, Repr

/-- Modelled from the spec: `zbd_zone_cnv`, the zone is conventional
(`ZBD_ZONE_TYPE_CNV = 1`). -/
def zbd_zone_cnv (z : zbd_zone) : Bool := z.type == 1

/-- Modelled from the spec: `zbd_zone_seq`, the zone is sequential write
required or preferred (`ZBD_ZONE_TYPE_SWR = 2`, `ZBD_ZONE_TYPE_SWP = 3`). -/
def zbd_zone_seq (z : zbd_zone) : Bool := z.type == 2 || z.type == 3

/-- The options, `struct zbd_opts`. -/
structure zbd_opts where
  dev_path : String
  dev_info : zbd_info
  cmd : zbd_cmd
  ofst : Int
  len : Int
  unit : Nat
  rep_csv : Bool
  rep_num_zones : Bool
  rep_opt : zbd_report_option
  deriving DecidableEq, Repr

/-- Access mode given to `zbd_open`. -/
inductive AccessMode where
  | O_RDONLY
  | O_RDWR
  deriving DecidableEq, Repr

/-- The flags argument of `zbd_open`: an access mode, or-ed with
`O_LARGEFILE`. -/
structure OpenFlags where
  access : AccessMode
  largefile : Bool
  deriving DecidableEq, Repr

/-! ## Observable events -/

/-- One constructor for each distinct diagnostic text written to `stderr`. -/
inductive Diag where
  /-- Text: Invalid command -/
  | invalid_command (arg : String)
  /-- Text: Invalid command line -/
  | invalid_command_line
  /-- Text: Unknown report option -/
  | unknown_report_option (arg : String)
  /-- Text: Unknown option -/
  | unknown_option (arg : String)
  /-- Text: No device specified -/
  | no_device
  /-- Text: Open (path) failed (not a zoned block device) -/
  | open_failed_not_zoned (path : String)
  /-- Text: Open (path) failed (error string) -/
  | open_failed (path : String)
  /-- Text: Invalid unit -/
  | invalid_unit
  /-- Text: Invalid unaligned offset/length (written by `main` and by `zbd_mgmt`) -/
  | unaligned
  /-- Text: Invalid operation -/
  | invalid_operation
  /-- Text: Zone operation failed (errno, error string) -/
  | zone_operation_failed
  /-- Text: zbd_report_nr_zones() failed (return value) -/
  | report_nr_zones_failed (ret : Int)
  /-- Text: No memory -/
  | no_memory
  /-- Text: zbd_report_zones() failed (return value) -/
  | report_zones_failed (ret : Int)
  deriving DecidableEq, Repr

/-- What is written to `stdout`, one constructor for each `printf`. -/
inductive Out where
  /-- the usage text of `zbd_usage` -/
  | usage (cmd : String)
  /-- the block printed by `zbd_print_dev_info` -/
  | dev_info (path : String) (info : zbd_info)
  /-- count-only report, CSV: the bare number -/
  | nr_zones_csv (nz : Nat)
  /-- count-only report: nz / total zones -/
  | nr_zones (nz total : Nat)
  /-- the CSV header line -/
  | csv_header
  /-- a CSV zone line: zone number, type, start, length, capacity, write
  pointer, condition, non-seq flag, reset flag -/
  | zone_csv (zno type start len cap wp cond non_seq reset : Nat)
  /-- a conventional zone: zone number, type, start, length, capacity -/
  | zone_cnv (zno type start len cap : Nat)
  /-- a sequential zone: zone number, type, start, length, capacity, write
  pointer, condition, non-seq flag, reset flag -/
  | zone_seq (zno type start len cap wp cond non_seq reset : Nat)
  /-- a zone of unknown type: zone number, type, start, length -/
  | zone_unknown (zno type start len : Nat)
  deriving DecidableEq, Repr

/-- The calls into libzbd, with their arguments. -/
inductive Call where
  | zbd_set_log_level
  | zbd_open (path : String) (flags : OpenFlags)
  | zbd_report_nr_zones (fd : Int) (ofst len : Int) (ro : zbd_report_option)
  | zbd_report_zones (fd : Int) (ofst len : Int) (ro : zbd_report_option) (nz : Nat)
  | zbd_reset_zones (fd : Int) (ofst len : Int)
  | zbd_open_zones (fd : Int) (ofst len : Int)
  | zbd_close_zones (fd : Int) (ofst len : Int)
  | zbd_finish_zones (fd : Int) (ofst len : Int)
  | zbd_close (fd : Int)
  deriving DecidableEq, Repr

/-- An observable event of a run. -/
inductive Event where
  | stderr (d : Diag)
  | stdout (o : Out)
  | call (c : Call)
  deriving DecidableEq, Repr

/-- The result of running a function: the value it returns (`none` when the
run stops in a division by zero) and the events in the order they happened. -/
structure Run where
  ret : Option Int
  trace : List Event
  deriving DecidableEq, Repr

/-- The library and the device behind it: what each libzbd call answers.
`zbd_open` gives the file descriptor (negative on failure) and the device
information it fills in; `zbd_report_nr_zones` gives its return value and the
number of zones; `zbd_report_zones` gives its return value and the zone
descriptors it stored; the four zone operations give their return value;
`calloc_ok` tells whether allocating that many descriptors succeeds. -/
structure Device where
  zbd_open : String → OpenFlags → Int × zbd_info
  zbd_report_nr_zones : Int → Int → Int → zbd_report_option → Int × Nat
  zbd_report_zones : Int → Int → Int → zbd_report_option → Nat → Int × List zbd_zone
  zbd_reset_zones : Int → Int → Int → Int
  zbd_open_zones : Int → Int → Int → Int
  zbd_close_zones : Int → Int → Int → Int
  zbd_finish_zones : Int → Int → Int → Int
  calloc_ok : Nat → Bool

/-! ## The actions -/

/-- The tail of `zbd_mgmt` after the zone operation `c` answered `ret`: the
failure message when `ret` is not zero, then `return ret`. -/
def zbd_mgmt_return (c : Call) (ret : Int) : Run :=
  if ret ≠ 0 then
    Run.mk (some ret) [Event.call c, Event.stderr Diag.zone_operation_failed]
  else
    Run.mk (some ret) [Event.call c]

/-- `zbd_mgmt`: check the zone range, then request the zone operation of the
command.  The offset and the length are `long long`, the zone size is
`unsigned long long`, so both remainders are taken on the unsigned
conversions; a zone size of zero stops the run in a division by zero. -/
def zbd_mgmt (dev : Device) (fd : Int) (opts : zbd_opts) : Run :=
  if opts.dev_info.zone_size = 0 then
    Run.mk none []
  else if u64 opts.ofst % opts.dev_info.zone_size ≠ 0 ∨
      u64 opts.len % opts.dev_info.zone_size ≠ 0 then
    Run.mk (some 1) [Event.stderr Diag.unaligned]
  else
    match opts.cmd with
    | zbd_cmd.ZBD_RESET =>
      zbd_mgmt_return (Call.zbd_reset_zones fd opts.ofst opts.len)
        (dev.zbd_reset_zones fd opts.ofst opts.len)
    | zbd_cmd.ZBD_OPEN =>
      zbd_mgmt_return (Call.zbd_open_zones fd opts.ofst opts.len)
        (dev.zbd_open_zones fd opts.ofst opts.len)
    | zbd_cmd.ZBD_CLOSE =>
      zbd_mgmt_return (Call.zbd_close_zones fd opts.ofst opts.len)
        (dev.zbd_close_zones fd opts.ofst opts.len)
    | zbd_cmd.ZBD_FINISH =>
      zbd_mgmt_return (Call.zbd_finish_zones fd opts.ofst opts.len)
        (dev.zbd_finish_zones fd opts.ofst opts.len)
    | zbd_cmd.ZBD_REPORT =>
      Run.mk (some 1) [Event.stderr Diag.invalid_operation]

/-- `zbd_print_zone`: the line printed for one zone, `none` when the zone
size or the unit is zero (division by zero).  The zone number is an
`unsigned int`; every other quotient is an `unsigned long long`. -/
def zbd_print_zone (opts : zbd_opts) (z : zbd_zone) : Option Out :=
  if opts.dev_info.zone_size = 0 then none
  else if opts.unit = 0 then none
  else
    let zno := u32 (z.start / opts.dev_info.zone_size)
    if opts.rep_csv then
      some (Out.zone_csv zno (u32 z.type) (z.start / opts.unit) (z.len / opts.unit)
        (z.capacity / opts.unit) (z.wp / opts.unit) z.cond
        (if z.non_seq_resources then 1 else 0) (if z.rwp_recommended then 1 else 0))
    else if zbd_zone_cnv z then
      some (Out.zone_cnv zno z.type (z.start / opts.unit) (z.len / opts.unit)
        (z.capacity / opts.unit))
    else if zbd_zone_seq z then
      some (Out.zone_seq zno z.type (z.start / opts.unit) (z.len / opts.unit)
        (z.capacity / opts.unit) (z.wp / opts.unit) z.cond
        (if z.non_seq_resources then 1 else 0) (if z.rwp_recommended then 1 else 0))
    else
      some (Out.zone_unknown zno z.type (z.start / opts.unit) (z.len / opts.unit))

/-- The loop `for (i = 0; i < nz; i++) zbd_print_zone(opts, &zones[i])` of
`zbd_report`, followed by `return ret` with `ret = 0`. -/
def print_zones (opts : zbd_opts) : List zbd_zone → Run
  | [] => Run.mk (some 0) []
  | z :: zs =>
    match zbd_print_zone opts z with
    | none => Run.mk none []
    | some o =>
      Run.mk (print_zones opts zs).ret (Event.stdout o :: (print_zones opts zs).trace)

/-- The number of zone descriptors `zbd_report` allocates:
`(len + zone_size - 1) / zone_size` in `unsigned long long`, stored in an
`unsigned int`. -/
def report_nz (len : Int) (zone_size : Nat) : Nat :=
  u32 (((u64 len + zone_size + (2 ^ 64 - 1)) % 2 ^ 64) / zone_size)

/-- `zbd_report`: the count-only report, or the report of the zones of the
range.  The library stores at most the requested number of descriptors. -/
def zbd_report (dev : Device) (fd : Int) (opts : zbd_opts) : Run :=
  if opts.rep_num_zones then
    let r := dev.zbd_report_nr_zones fd opts.ofst opts.len opts.rep_opt
    let c := Event.call (Call.zbd_report_nr_zones fd opts.ofst opts.len opts.rep_opt)
    if r.1 ≠ 0 then
      Run.mk (some 1) [c, Event.stderr (Diag.report_nr_zones_failed r.1)]
    else if opts.rep_csv then
      Run.mk (some 0) [c, Event.stdout (Out.nr_zones_csv r.2)]
    else
      Run.mk (some 0) [c, Event.stdout (Out.nr_zones r.2 opts.dev_info.nr_zones)]
  else if opts.dev_info.zone_size = 0 then
    Run.mk none []
  else
    let nz := report_nz opts.len opts.dev_info.zone_size
    if nz = 0 then
      Run.mk (some 0) []
    else if dev.calloc_ok nz = false then
      Run.mk (some 1) [Event.stderr Diag.no_memory]
    else
      let r := dev.zbd_report_zones fd opts.ofst opts.len opts.rep_opt nz
      let c := Event.call (Call.zbd_report_zones fd opts.ofst opts.len opts.rep_opt nz)
      if r.1 ≠ 0 then
        Run.mk (some 1) [c, Event.stderr (Diag.report_zones_failed r.1)]
      else
        let header := if opts.rep_csv then [Event.stdout Out.csv_header] else []
        let p := print_zones opts (r.2.take nz)
        Run.mk p.ret (c :: header ++ p.trace)

/-- An entry of the table `zact`, `struct zbd_action`. -/
structure zbd_action where
  action : Device → Int → zbd_opts → Run
  flags : AccessMode

/-- The table `zact`, indexed by the command. -/
def zact : zbd_cmd → zbd_action
  | zbd_cmd.ZBD_REPORT => zbd_action.mk zbd_report AccessMode.O_RDONLY
  | zbd_cmd.ZBD_RESET => zbd_action.mk zbd_mgmt AccessMode.O_RDWR
  | zbd_cmd.ZBD_OPEN => zbd_action.mk zbd_mgmt AccessMode.O_RDWR
  | zbd_cmd.ZBD_CLOSE => zbd_action.mk zbd_mgmt AccessMode.O_RDWR
  | zbd_cmd.ZBD_FINISH => zbd_action.mk zbd_mgmt AccessMode.O_RDWR

/-- `zbd_print_dev_info`: nothing for a CSV report, the device information
block otherwise. -/
def zbd_print_dev_info (opts : zbd_opts) : List Event :=
  if opts.cmd = zbd_cmd.ZBD_REPORT ∧ opts.rep_csv = true then []
  else [Event.stdout (Out.dev_info opts.dev_path opts.dev_info)]

/-- `zbd_usage`: print the usage text and return 1. -/
def zbd_usage (cmd : String) : Run :=
  Run.mk (some 1) [Event.stdout (Out.usage cmd)]

/-! ## `main` -/

/-- The errno value `ENODEV`. -/
def ENODEV : Int := 19

/-- The device capacity computed by `main`,
`(long long)opts.dev_info.nr_sectors << 9`. -/
def capacity (info : zbd_info) : Int := wrap64 (info.nr_sectors * 512)

/-- The test of `main` that rejects the unit:
`opts.unit > 1 && (opts.unit > zone_size || opts.unit % 512)`. -/
def unit_rejected (opts : zbd_opts) : Bool :=
  decide (opts.unit > 1 ∧ (opts.unit > opts.dev_info.zone_size ∨ opts.unit % 512 ≠ 0))

/-- The test of `main` that rejects offset and length:
`opts.ofst % 512 || opts.len % 512`, on `long long` operands. -/
def sector_misaligned (opts : zbd_opts) : Bool :=
  decide (Int.tmod opts.ofst 512 ≠ 0 ∨ Int.tmod opts.len 512 ≠ 0)

/-- The two assignments of `main` to `opts.len`: a length of zero becomes
the capacity, then a range that ends after the capacity is cut at it.  The
sum and the difference are `long long`. -/
def normalize (opts : zbd_opts) (cap : Int) : zbd_opts :=
  let opts1 := if opts.len = 0 then { opts with len := cap } else opts
  if wrap64 (opts1.ofst + opts1.len) > cap then
    { opts1 with len := wrap64 (cap - opts1.ofst) }
  else opts1

/-- The end of `main`: print the device information if asked for, run the
action of the command, then close the device and return what the action
returned. -/
def main_action (dev : Device) (dev_fd : Int) (opts : zbd_opts) (dev_info : Bool) : Run :=
  let t_info := if dev_info then zbd_print_dev_info opts else []
  let r := (zact opts.cmd).action dev dev_fd opts
  match r.ret with
  | none => Run.mk none (t_info ++ r.trace)
  | some v => Run.mk (some v) (t_info ++ r.trace ++ [Event.call (Call.zbd_close dev_fd)])

/-- The flags `main` gives to `zbd_open`: `zact[opts.cmd].flags | O_LARGEFILE`. -/
def open_flags (cmd : zbd_cmd) : OpenFlags := OpenFlags.mk (zact cmd).flags true

/-- The part of `main` from "Open device" to its end: open the device with
the access mode of the command, check unit, offset and length, normalise the
length, run the action of the command and close the device.  `ret` still has
its initial value 1 when the open failure is reported. -/
def main_device (dev : Device) (opts0 : zbd_opts) (dev_info : Bool) : Run :=
  let ret : Int := 1
  let o := dev.zbd_open opts0.dev_path (open_flags opts0.cmd)
  let dev_fd := o.1
  let opts := { opts0 with dev_info := o.2 }
  let t_open := Event.call (Call.zbd_open opts0.dev_path (open_flags opts0.cmd))
  let t_close := Event.call (Call.zbd_close dev_fd)
  if dev_fd < 0 then
    if ret = -ENODEV then
      Run.mk (some 1) [t_open, Event.stderr (Diag.open_failed_not_zoned opts.dev_path)]
    else
      Run.mk (some 1) [t_open, Event.stderr (Diag.open_failed opts.dev_path)]
  else if unit_rejected opts then
    Run.mk (some 1) [t_open, Event.stderr Diag.invalid_unit, t_close]
  else if sector_misaligned opts then
    Run.mk (some 1) [t_open, Event.stderr Diag.unaligned, t_close]
  else if opts.ofst ≥ capacity opts.dev_info then
    Run.mk (some 0) [t_open, t_close]
  else
    Run.mk (main_action dev dev_fd (normalize opts (capacity opts.dev_info)) dev_info).ret
      (t_open :: (main_action dev dev_fd (normalize opts (capacity opts.dev_info)) dev_info).trace)

/-! ### Option parsing -/

/-- The C library test `isspace` in the C locale: space, and the five
characters from horizontal tab to carriage return. -/
def isspace (c : Char) : Bool := c.toNat = 32 || (9 ≤ c.toNat && c.toNat ≤ 13)

/-- The value of the longest prefix of decimal digits, continuing from
`acc`. -/
def digits_value : List Char → Nat → Nat
  | [], acc => acc
  | c :: cs, acc =>
    if 48 ≤ c.toNat ∧ c.toNat ≤ 57 then digits_value cs (acc * 10 + (c.toNat - 48)) else acc

/-- The C library function `strtoll(s, NULL, 10)`: skip white space, read an
optional sign and the decimal digits that follow, and clamp the value to the
range of `long long`; 0 when there is no digit. -/
def strtoll (s : String) : Int :=
  match s.toList.dropWhile isspace with
  | [] => 0
  | c :: cs =>
    if c = '-' then max (-(digits_value cs 0 : Int)) (-(2 ^ 63))
    else if c = '+' then min (digits_value cs 0 : Int) (2 ^ 63 - 1)
    else min (digits_value (c :: cs) 0 : Int) (2 ^ 63 - 1)

/-- The chain of `strcmp` tests on `argv[1]` that selects the command. -/
def cmd_of_arg (s : String) : Option zbd_cmd :=
  if s = "report" then some zbd_cmd.ZBD_REPORT
  else if s = "reset" then some zbd_cmd.ZBD_RESET
  else if s = "open" then some zbd_cmd.ZBD_OPEN
  else if s = "close" then some zbd_cmd.ZBD_CLOSE
  else if s = "finish" then some zbd_cmd.ZBD_FINISH
  else none

/-- The chain of `strcmp` tests on the argument of `-ro`, in the order of
the source. -/
def rep_opt_of_code (s : String) : Option zbd_report_option :=
  if s = "em" then some zbd_report_option.ZBD_RO_EMPTY
  else if s = "oi" then some zbd_report_option.ZBD_RO_IMP_OPEN
  else if s = "oe" then some zbd_report_option.ZBD_RO_EXP_OPEN
  else if s = "cl" then some zbd_report_option.ZBD_RO_CLOSED
  else if s = "fu" then some zbd_report_option.ZBD_RO_FULL
  else if s = "ro" then some zbd_report_option.ZBD_RO_RDONLY
  else if s = "ol" then some zbd_report_option.ZBD_RO_OFFLINE
  else if s = "rw" then some zbd_report_option.ZBD_RO_RWP_RECOMMENDED
  else if s = "ns" then some zbd_report_option.ZBD_RO_NON_SEQ
  else if s = "nw" then some zbd_report_option.ZBD_RO_NOT_WP
  else none

/-- How the option loop of `main` ends: with `return 1` after the events in
`tr`, or at the device path with the options read so far. -/
inductive Parsed where
  | fail (tr : List Event)
  | device (path : String) (opts : zbd_opts) (dev_info : Bool) (tr : List Event)
  deriving DecidableEq, Repr

/-- The loop `for (i = 2; i < (argc - 1); i++)` of `main` and the test
`i != (argc - 1)` after it, on the arguments from `argv[i]` on.  The loop
body runs while at least two arguments are left (`a = argv[i]`,
`b = argv[i + 1]`), so the tests `i >= (argc - 1)` inside it never fire; an
option with a value consumes both.  A first argument that is not an option
leaves the loop with `i < argc - 1`. -/
def parse_options : List String → zbd_opts → Bool → List Event → Parsed
  | [], _, _, tr => Parsed.fail (tr ++ [Event.stderr Diag.no_device])
  | [a], opts, dev_info, tr => Parsed.device a opts dev_info tr
  | a :: b :: rest, opts, dev_info, tr =>
    if a = "-v" then
      parse_options (b :: rest) opts dev_info (tr ++ [Event.call Call.zbd_set_log_level])
    else if a = "-i" then
      parse_options (b :: rest) opts true tr
    else if a = "-ofst" then
      parse_options rest { opts with ofst := strtoll b } dev_info tr
    else if a = "-len" then
      parse_options rest { opts with len := strtoll b } dev_info tr
    else if a = "-u" then
      parse_options rest { opts with unit := u64 (strtoll b) } dev_info tr
    else if a = "-csv" then
      parse_options (b :: rest) { opts with rep_csv := true } dev_info tr
    else if a = "-n" then
      parse_options (b :: rest) { opts with rep_num_zones := true } dev_info tr
    else if a = "-ro" then
      match rep_opt_of_code b with
      | some ro => parse_options rest { opts with rep_opt := ro } dev_info tr
      | none => Parsed.fail (tr ++ [Event.stderr (Diag.unknown_report_option b)])
    else if a.toList.head? = some '-' then
      Parsed.fail (tr ++ [Event.stderr (Diag.unknown_option a)])
    else
      Parsed.fail (tr ++ [Event.stderr Diag.no_device])

/-- The options after `memset`, `opts.rep_opt = ZBD_RO_ALL` and
`opts.unit = 1`, with the command stored. -/
def initial_opts (cmd : zbd_cmd) : zbd_opts :=
  zbd_opts.mk "" (zbd_info.mk 0 0 0 []) cmd 0 0 1 false false zbd_report_option.ZBD_RO_ALL

/-- `main`, on the argument vector `argv` (so `argc = argv.length`). -/
def main (dev : Device) (argv : List String) : Run :=
  match argv with
  | _ :: arg1 :: arg2 :: rest =>
    match cmd_of_arg arg1 with
    | none => Run.mk (some 1) [Event.stderr (Diag.invalid_command arg1)]
    | some cmd =>
      match parse_options (arg2 :: rest) (initial_opts cmd) false [] with
      | Parsed.fail tr => Run.mk (some 1) tr
      | Parsed.device path opts dev_info tr =>
        Run.mk (main_device dev { opts with dev_path := path } dev_info).ret
          (tr ++ (main_device dev { opts with dev_path := path } dev_info).trace)
  | _ => zbd_usage (argv.headD "")

/-! ## A sample device -/

/-- A zone of the sample device: sequential write required, empty. -/
def sample_zone (zone_size i : Nat) : zbd_zone :=
  zbd_zone.mk (i * zone_size) zone_size zone_size (i * zone_size) 2 1 false false

/-- A well-behaved device of `nr_zones` zones of `zone_size` bytes whose
capacity is `nr_sectors` sectors: opening gives descriptor 3, a report gives
the zones from the one containing the offset, in ascending order, at most as
many as asked for, and every zone operation answers `op_ret`. -/
def sample_device (nr_sectors zone_size nr_zones : Nat) (op_ret : Int) : Device :=
  Device.mk
    (fun _ _ => (3, zbd_info.mk nr_sectors zone_size nr_zones []))
    (fun _ ofst _ _ => (0, nr_zones - ofst.toNat / zone_size))
    (fun _ ofst _ _ nz =>
      (0, ((List.range nr_zones).drop (ofst.toNat / zone_size)).take nz |>.map
        (sample_zone zone_size)))
    (fun _ _ _ => op_ret)
    (fun _ _ _ => op_ret)
    (fun _ _ _ => op_ret)
    (fun _ _ _ => op_ret)
    (fun _ => true)

/-! ## Reading a trace -/

/-- The event is a request for a zone operation (reset, open, close or
finish). -/
def is_transition : Event → Bool
  | Event.call (Call.zbd_reset_zones _ _ _) => true
  | Event.call (Call.zbd_open_zones _ _ _) => true
  | Event.call (Call.zbd_close_zones _ _ _) => true
  | Event.call (Call.zbd_finish_zones _ _ _) => true
  | _ => false

/-- The event is a report query (a zone count or zone descriptors). -/
def is_report_query : Event → Bool
  | Event.call (Call.zbd_report_nr_zones _ _ _ _) => true
  | Event.call (Call.zbd_report_zones _ _ _ _ _) => true
  | _ => false

/-- The event is a call of `zbd_open`. -/
def is_open : Event → Bool
  | Event.call (Call.zbd_open _ _) => true
  | _ => false

/-- The zone operation requests of a trace, in order. -/
def transitions (tr : List Event) : List Event := tr.filter is_transition

/-- The report queries of a trace, in order. -/
def report_queries (tr : List Event) : List Event := tr.filter is_report_query

/-- What a trace wrote to `stdout`, in order. -/
def outputs : List Event → List Out
  | [] => []
  | Event.stdout o :: tr => o :: outputs tr
  | _ :: tr => outputs tr

/-- The zone number of a printed zone line. -/
def zone_number : Out → Option Nat
  | Out.zone_csv zno _ _ _ _ _ _ _ _ => some zno
  | Out.zone_cnv zno _ _ _ _ => some zno
  | Out.zone_seq zno _ _ _ _ _ _ _ _ => some zno
  | Out.zone_unknown zno _ _ _ => some zno
  | _ => none

/-- The zone numbers of the zone lines a trace printed, in order. -/
def zone_numbers (tr : List Event) : List Nat := (outputs tr).filterMap zone_number

/-- The zone operation request of a management command. -/
def transition_call (cmd : zbd_cmd) (fd ofst len : Int) : Option Call :=
  match cmd with
  | zbd_cmd.ZBD_RESET => some (Call.zbd_reset_zones fd ofst len)
  | zbd_cmd.ZBD_OPEN => some (Call.zbd_open_zones fd ofst len)
  | zbd_cmd.ZBD_CLOSE => some (Call.zbd_close_zones fd ofst len)
  | zbd_cmd.ZBD_FINISH => some (Call.zbd_finish_zones fd ofst len)
  | zbd_cmd.ZBD_REPORT => none

/-! ## The range normalisation as the specification words it -/

/-- The reference normalisation of the length: `capacity - offset` when the
length is zero, `capacity - offset` when `offset + length` exceeds the
capacity, the length itself otherwise. -/
def spec_normalized_len (cap offset length : Int) : Int :=
  if length = 0 then cap - offset
  else if offset + length > cap then cap - offset
  else length

/-- The unit rule as the specification words it: the unit is 1, or a
multiple of 512 that does not exceed the zone size. -/
def spec_unit_valid (unit zone_size : Nat) : Prop :=
  unit = 1 ∨ (512 ∣ unit ∧ unit ≤ zone_size)

/-- Options as parsing leaves them for a command, an offset and a length,
with the default unit, on the device path "/dev/x". -/
def sample_opts (cmd : zbd_cmd) (ofst len : Int) : zbd_opts :=
  { initial_opts cmd with dev_path := "/dev/x", ofst := ofst, len := len }

/-- The data-model invariant of a device geometry, with the ranges of the C
types that hold it: the zone size is positive and at most `2 ^ 63` (a power
of two held in an `unsigned long long`), the capacity `nr_sectors * 512` fits
a `long long`, the zone count fits an `unsigned int`, and
`zone_count * zone_size >= capacity`. -/
def geometry_invariant (info : zbd_info) : Prop :=
  0 < info.zone_size ∧ info.zone_size ≤ 2 ^ 63 ∧ info.nr_sectors * 512 < 2 ^ 63 ∧
  info.nr_zones < 2 ^ 32 ∧ info.nr_sectors * 512 ≤ info.nr_zones * info.zone_size

instance (info : zbd_info) : Decidable (geometry_invariant info) := by
  unfold geometry_invariant
  infer_instance

/-- The number of zones, among the `nr_zones` zones of `zone_size` bytes of
a device, that the byte range `[ofst, ofst + len)` touches, fully or
partially; zone `i` covers `[i * zone_size, (i + 1) * zone_size)`. -/
def zones_touched (ofst len zone_size nr_zones : Nat) : Nat :=
  ((List.range nr_zones).filter
    (fun i => decide (i * zone_size < ofst + len ∧ ofst < (i + 1) * zone_size))).length

/-- A device on which `zbd_open` fails with the value `code`; no other call
is ever reached. -/
def failing_device (code : Int) : Device :=
  { sample_device 0 0 0 0 with zbd_open := fun _ _ => (code, zbd_info.mk 0 0 0 []) }

/-- Options of a CSV report with the given unit on a device with the given
zone size. -/
def csv_opts (unit zone_size : Nat) : zbd_opts :=
  { sample_opts zbd_cmd.ZBD_REPORT 0 0 with
    rep_csv := true, unit := unit, dev_info := zbd_info.mk (2 ^ 21) zone_size 4 [] }

/-! ## The paths through `main_device` -/

/-- The options as `main` holds them once the device is open. -/
def opened (dev : Device) (opts : zbd_opts) : zbd_opts :=
  { opts with dev_info := (dev.zbd_open opts.dev_path (open_flags opts.cmd)).2 }

/-- The descriptor `zbd_open` gives to `main`. -/
def opened_fd (dev : Device) (opts : zbd_opts) : Int :=
  (dev.zbd_open opts.dev_path (open_flags opts.cmd)).1

theorem main_device_open_failed (dev : Device) (opts : zbd_opts) (di : Bool)
    (h : opened_fd dev opts < 0) :
    main_device dev opts di = Run.mk (some 1)
      [Event.call (Call.zbd_open opts.dev_path (open_flags opts.cmd)),
        Event.stderr (Diag.open_failed opts.dev_path)] := by
  unfold opened_fd at h
  simp [main_device, h, ENODEV]

theorem main_device_unit_rejected (dev : Device) (opts : zbd_opts) (di : Bool)
    (h : 0 ≤ opened_fd dev opts) (hu : unit_rejected (opened dev opts) = true) :
    main_device dev opts di = Run.mk (some 1)
      [Event.call (Call.zbd_open opts.dev_path (open_flags opts.cmd)),
        Event.stderr Diag.invalid_unit,
        Event.call (Call.zbd_close (opened_fd dev opts))] := by
  unfold opened_fd at h
  unfold opened at hu
  simp [main_device, Int.not_lt.mpr h, hu, opened_fd]

theorem main_device_misaligned (dev : Device) (opts : zbd_opts) (di : Bool)
    (h : 0 ≤ opened_fd dev opts) (hu : unit_rejected (opened dev opts) = false)
    (hs : sector_misaligned (opened dev opts) = true) :
    main_device dev opts di = Run.mk (some 1)
      [Event.call (Call.zbd_open opts.dev_path (open_flags opts.cmd)),
        Event.stderr Diag.unaligned,
        Event.call (Call.zbd_close (opened_fd dev opts))] := by
  unfold opened_fd at h
  unfold opened at hu hs
  simp [main_device, Int.not_lt.mpr h, hu, hs, opened_fd]

theorem main_device_beyond (dev : Device) (opts : zbd_opts) (di : Bool)
    (h : 0 ≤ opened_fd dev opts) (hu : unit_rejected (opened dev opts) = false)
    (hs : sector_misaligned (opened dev opts) = false)
    (hc : capacity (opened dev opts).dev_info ≤ opts.ofst) :
    main_device dev opts di = Run.mk (some 0)
      [Event.call (Call.zbd_open opts.dev_path (open_flags opts.cmd)),
        Event.call (Call.zbd_close (opened_fd dev opts))] := by
  unfold opened_fd at h
  unfold opened at hu hs hc
  simp only at hc
  simp [main_device, Int.not_lt.mpr h, hu, hs, hc, opened_fd]

theorem main_device_action (dev : Device) (opts : zbd_opts) (di : Bool)
    (h : 0 ≤ opened_fd dev opts) (hu : unit_rejected (opened dev opts) = false)
    (hs : sector_misaligned (opened dev opts) = false)
    (hc : opts.ofst < capacity (opened dev opts).dev_info) :
    main_device dev opts di =
      Run.mk (main_action dev (opened_fd dev opts)
          (normalize (opened dev opts) (capacity (opened dev opts).dev_info)) di).ret
        (Event.call (Call.zbd_open opts.dev_path (open_flags opts.cmd)) ::
          (main_action dev (opened_fd dev opts)
            (normalize (opened dev opts) (capacity (opened dev opts).dev_info)) di).trace) := by
  unfold opened_fd at h
  unfold opened at hu hs hc
  simp only at hc
  simp [main_device, Int.not_lt.mpr h, hu, hs, Int.not_le.mpr hc, opened_fd, opened]

theorem main_eq_main_device (dev : Device) (p a1 a2 : String) (rest : List String)
    (cmd : zbd_cmd) (path : String) (o : zbd_opts) (di : Bool) (tr : List Event)
    (hcmd : cmd_of_arg a1 = some cmd)
    (hparse : parse_options (a2 :: rest) (initial_opts cmd) false [] =
      Parsed.device path o di tr) :
    main dev (p :: a1 :: a2 :: rest) =
      Run.mk (main_device dev { o with dev_path := path } di).ret
        (tr ++ (main_device dev { o with dev_path := path } di).trace) := by
  simp only [main, hcmd, hparse]

theorem parse_options_device_trace (args : List String) (opts : zbd_opts) (di : Bool)
    (tr : List Event) (h0 : ∀ e ∈ tr, e = Event.call Call.zbd_set_log_level) :
    ∀ path o di2 tr2, parse_options args opts di tr = Parsed.device path o di2 tr2 →
      ∀ e ∈ tr2, e = Event.call Call.zbd_set_log_level := by
  induction args, opts, di, tr using parse_options.induct
  all_goals intro path o di2 tr2 h
  all_goals rw [parse_options] at h
  all_goals try simp only [*, if_true, if_false, reduceCtorEq] at h
  all_goals first
    | (cases h
       exact h0)
    | (rename_i ih
       exact ih h0 path o di2 tr2 h)
    | (rename_i ih
       refine ih ?_ path o di2 tr2 h
       intro e he
       rcases List.mem_append.mp he with he1 | he1
       · exact h0 e he1
       · exact List.mem_singleton.mp he1)

theorem sector_misaligned_iff (opts : zbd_opts) :
    sector_misaligned opts = true ↔ (¬ (512 : Int) ∣ opts.ofst ∨ ¬ (512 : Int) ∣ opts.len) := by
  simp [sector_misaligned, Int.dvd_iff_tmod_eq_zero]

theorem sector_aligned_iff (opts : zbd_opts) :
    sector_misaligned opts = false ↔ ((512 : Int) ∣ opts.ofst ∧ (512 : Int) ∣ opts.len) := by
  simp [sector_misaligned, Int.dvd_iff_tmod_eq_zero]

theorem wrap64_eq (x : Int) (h0 : -(2 ^ 63) ≤ x) (h1 : x < 2 ^ 63) : wrap64 x = x := by
  unfold wrap64
  omega

theorem capacity_eq (info : zbd_info) (h : info.nr_sectors * 512 < 2 ^ 63) :
    capacity info = (info.nr_sectors * 512 : Nat) := by
  unfold capacity
  apply wrap64_eq <;> omega

/-- C1: whatever the command, the device and the unit, when the offset or the
length is not a multiple of 512 `main` returns 1, requests no zone operation,
makes no report query and prints nothing; and when the device opened and the
unit passed its check, what the run does is exactly: open the device, write
the "Invalid unaligned offset/length" diagnostic, close the device. -/
theorem misaligned_sector_fails (dev : Device) (opts : zbd_opts) (di : Bool)
    (h : ¬ (512 : Int) ∣ opts.ofst ∨ ¬ (512 : Int) ∣ opts.len) :
    (main_device dev opts di).ret = some 1 ∧
    transitions (main_device dev opts di).trace = [] ∧
    report_queries (main_device dev opts di).trace = [] ∧
    outputs (main_device dev opts di).trace = [] ∧
    (0 ≤ opened_fd dev opts → unit_rejected (opened dev opts) = false →
      (main_device dev opts di).trace =
        [Event.call (Call.zbd_open opts.dev_path (open_flags opts.cmd)),
          Event.stderr Diag.unaligned,
          Event.call (Call.zbd_close (opened_fd dev opts))]) := by
  have hs : sector_misaligned (opened dev opts) = true :=
    (sector_misaligned_iff _).mpr h
  by_cases hfd : opened_fd dev opts < 0
  · rw [main_device_open_failed dev opts di hfd]
    refine ⟨rfl, rfl, rfl, rfl, ?_⟩
    intro h0
    omega
  · have h0 : 0 ≤ opened_fd dev opts := Int.not_lt.mp hfd
    cases hu : unit_rejected (opened dev opts) with
    | true =>
      rw [main_device_unit_rejected dev opts di h0 hu]
      refine ⟨rfl, rfl, rfl, rfl, ?_⟩
      intro _ hf
      cases hf
    | false =>
      rw [main_device_misaligned dev opts di h0 hu hs]
      exact ⟨rfl, rfl, rfl, rfl, fun _ _ => rfl⟩

theorem misaligned_sector_fails_witness :
    (¬ (512 : Int) ∣ 100 ∨ ¬ (512 : Int) ∣ 0) ∧
    (main_device (sample_device (2 ^ 21) (2 ^ 28) 4 0)
      (sample_opts zbd_cmd.ZBD_RESET 100 0) false).ret = some 1 :=
  ⟨by decide,
    (misaligned_sector_fails (sample_device (2 ^ 21) (2 ^ 28) 4 0)
      (sample_opts zbd_cmd.ZBD_RESET 100 0) false (by decide)).1⟩

/-- C2, as the code has it: for a device that opened, whose capacity
`nr_sectors * 512` fits a `long long`, and a request whose unit passed its
check and whose offset and length are multiples of 512, an offset at or after
the capacity makes `main` return 0 after doing nothing but open and close the
device, for every command: no diagnostic, no report query, nothing printed,
no zone operation requested. -/
theorem offset_beyond_capacity_noop (dev : Device) (opts : zbd_opts) (di : Bool)
    (hfd : 0 ≤ opened_fd dev opts)
    (hu : unit_rejected (opened dev opts) = false)
    (ho : (512 : Int) ∣ opts.ofst) (hl : (512 : Int) ∣ opts.len)
    (hg : (opened dev opts).dev_info.nr_sectors * 512 < 2 ^ 63)
    (hc : (((opened dev opts).dev_info.nr_sectors * 512 : Nat) : Int) ≤ opts.ofst) :
    main_device dev opts di = Run.mk (some 0)
      [Event.call (Call.zbd_open opts.dev_path (open_flags opts.cmd)),
        Event.call (Call.zbd_close (opened_fd dev opts))] ∧
    transitions (main_device dev opts di).trace = [] ∧
    report_queries (main_device dev opts di).trace = [] ∧
    outputs (main_device dev opts di).trace = [] := by
  have hs : sector_misaligned (opened dev opts) = false :=
    (sector_aligned_iff _).mpr ⟨ho, hl⟩
  have hcap : capacity (opened dev opts).dev_info ≤ opts.ofst := by
    rw [capacity_eq _ hg]
    exact hc
  rw [main_device_beyond dev opts di hfd hu hs hcap]
  exact ⟨rfl, rfl, rfl, rfl⟩

theorem offset_beyond_capacity_noop_witness :
    (0 ≤ opened_fd (sample_device (2 ^ 21) (2 ^ 28) 4 0)
      (sample_opts zbd_cmd.ZBD_RESET (2 ^ 30) 0)) ∧
    (512 : Int) ∣ 2 ^ 30 ∧
    transitions (main_device (sample_device (2 ^ 21) (2 ^ 28) 4 0)
      (sample_opts zbd_cmd.ZBD_RESET (2 ^ 30) 0) false).trace = [] :=
  ⟨by decide, by decide,
    (offset_beyond_capacity_noop (sample_device (2 ^ 21) (2 ^ 28) 4 0)
      (sample_opts zbd_cmd.ZBD_RESET (2 ^ 30) 0) false
      (by decide) (by decide) (by decide) (by decide) (by decide) (by decide)).2.1⟩

/-- C2 as stated fails: on a device of 2^21 sectors (capacity 2^30 bytes) the
request `zbd report -ofst 1073741825 /dev/x` has its offset after the
capacity, and `main` returns 1 with the unaligned offset/length diagnostic. -/
theorem offset_beyond_capacity_counterexample :
    ((2 ^ 21 * 512 : Nat) : Int) ≤ strtoll "1073741825" ∧
    main (sample_device (2 ^ 21) (2 ^ 28) 4 0)
      ["zbd", "report", "-ofst", "1073741825", "/dev/x"] =
      Run.mk (some 1)
        [Event.call (Call.zbd_open "/dev/x" (OpenFlags.mk AccessMode.O_RDONLY true)),
          Event.stderr Diag.unaligned,
          Event.call (Call.zbd_close 3)] := by
  decide

theorem normalize_eq_spec (o : zbd_opts) (cap : Int)
    (h0 : 0 ≤ o.ofst) (hc : o.ofst < cap) (hcap : o.ofst + cap < 2 ^ 63)
    (hl : -(2 ^ 63) ≤ o.len) (hsum : o.ofst + o.len < 2 ^ 63) :
    normalize o cap = { o with len := spec_normalized_len cap o.ofst o.len } := by
  have hd : wrap64 (cap - o.ofst) = cap - o.ofst := by
    apply wrap64_eq <;> omega
  unfold normalize spec_normalized_len
  by_cases hz : o.len = 0
  · have hw : wrap64 (o.ofst + cap) = o.ofst + cap := by
      apply wrap64_eq <;> omega
    simp only [hz, if_true, hw, hd]
    by_cases hp : o.ofst + cap > cap
    · simp [hp]
    · have : o.ofst = 0 := by omega
      simp [hp, this]
  · have hw : wrap64 (o.ofst + o.len) = o.ofst + o.len := by
      apply wrap64_eq <;> omega
    simp only [hz, if_false, hw, hd]
    by_cases hp : o.ofst + o.len > cap
    · simp [hp]
    · simp [hp]

/-- C3, as the code has it: for a device that opened, a unit that passed its
check, and a sector-aligned (offset, length) with `0 ≤ offset < capacity`
whose sums `offset + length` and `offset + capacity` stay in the range of a
`long long`, the action of the command is run on options whose length is the
reference normalisation (`capacity - offset` when the length is 0 or when
`offset + length > capacity`, the requested length otherwise) and whose
offset is the requested one. -/
theorem length_normalised (dev : Device) (opts : zbd_opts) (di : Bool)
    (hfd : 0 ≤ opened_fd dev opts)
    (hu : unit_rejected (opened dev opts) = false)
    (ho : (512 : Int) ∣ opts.ofst) (hl : (512 : Int) ∣ opts.len)
    (h0 : 0 ≤ opts.ofst)
    (hc : opts.ofst < (((opened dev opts).dev_info.nr_sectors * 512 : Nat) : Int))
    (hcap : opts.ofst + (((opened dev opts).dev_info.nr_sectors * 512 : Nat) : Int) < 2 ^ 63)
    (hlen : -(2 ^ 63) ≤ opts.len) (hsum : opts.ofst + opts.len < 2 ^ 63) :
    main_device dev opts di =
      Run.mk
        (main_action dev (opened_fd dev opts)
          { opened dev opts with
            len := spec_normalized_len
              (((opened dev opts).dev_info.nr_sectors * 512 : Nat) : Int) opts.ofst opts.len }
          di).ret
        (Event.call (Call.zbd_open opts.dev_path (open_flags opts.cmd)) ::
          (main_action dev (opened_fd dev opts)
            { opened dev opts with
              len := spec_normalized_len
                (((opened dev opts).dev_info.nr_sectors * 512 : Nat) : Int) opts.ofst opts.len }
            di).trace) ∧
    ({ opened dev opts with
        len := spec_normalized_len
          (((opened dev opts).dev_info.nr_sectors * 512 : Nat) : Int) opts.ofst opts.len }
      : zbd_opts).ofst = opts.ofst := by
  have hs : sector_misaligned (opened dev opts) = false :=
    (sector_aligned_iff _).mpr ⟨ho, hl⟩
  have hg : (opened dev opts).dev_info.nr_sectors * 512 < 2 ^ 63 := by omega
  have hceq := capacity_eq _ hg
  have hcc : opts.ofst < capacity (opened dev opts).dev_info := by
    rw [hceq]
    exact hc
  refine ⟨?_, rfl⟩
  rw [main_device_action dev opts di hfd hu hs hcc, hceq]
  rw [normalize_eq_spec (opened dev opts) _ h0 hc hcap hlen hsum]
  rfl

theorem length_normalised_witness :
    (0 : Int) ≤ 2 ^ 29 ∧ (512 : Int) ∣ 2 ^ 29 ∧ (512 : Int) ∣ 2 ^ 30 ∧
    spec_normalized_len ((2 ^ 21 * 512 : Nat) : Int) (2 ^ 29) (2 ^ 30) = 2 ^ 29 ∧
    (main_device (sample_device (2 ^ 21) (2 ^ 28) 4 0)
      (sample_opts zbd_cmd.ZBD_RESET (2 ^ 29) (2 ^ 30)) false).trace =
      [Event.call (Call.zbd_open "/dev/x" (OpenFlags.mk AccessMode.O_RDWR true)),
        Event.call (Call.zbd_reset_zones 3 (2 ^ 29) (2 ^ 29)),
        Event.call (Call.zbd_close 3)] :=
  ⟨by decide, by decide, by decide, by decide,
    by
      rw [(length_normalised (sample_device (2 ^ 21) (2 ^ 28) 4 0)
        (sample_opts zbd_cmd.ZBD_RESET (2 ^ 29) (2 ^ 30)) false
        (by decide) (by decide) (by decide) (by decide) (by decide) (by decide)
        (by decide) (by decide) (by decide)).1]
      decide⟩

/-- C3 as stated fails: `zbd report -n -ofst -512 /dev/x` on a device of
capacity 2^30 has a sector-aligned offset below the capacity and length 0;
the reference normalisation gives `capacity - offset = 2^30 + 512`, the count
query is made with length `2^30`. -/
theorem length_normalised_counterexample :
    (512 : Int) ∣ strtoll "-512" ∧
    strtoll "-512" < ((2 ^ 21 * 512 : Nat) : Int) ∧
    spec_normalized_len ((2 ^ 21 * 512 : Nat) : Int) (strtoll "-512") 0 = 1073742336 ∧
    main (sample_device (2 ^ 21) (2 ^ 28) 4 0)
      ["zbd", "report", "-n", "-ofst", "-512", "/dev/x"] =
      Run.mk (some 0)
        [Event.call (Call.zbd_open "/dev/x" (OpenFlags.mk AccessMode.O_RDONLY true)),
          Event.call (Call.zbd_report_nr_zones 3 (-512) 1073741824
            zbd_report_option.ZBD_RO_ALL),
          Event.stdout (Out.nr_zones 4 4),
          Event.call (Call.zbd_close 3)] := by
  decide

theorem u64_eq (x : Int) (h0 : 0 ≤ x) (h1 : x < 2 ^ 64) : u64 x = x.toNat := by
  unfold u64
  rw [Int.emod_eq_of_lt h0 h1]

theorem u64_mod_eq_zero_iff (x : Int) (zs : Nat) (h0 : 0 ≤ x) (h1 : x < 2 ^ 64) :
    u64 x % zs = 0 ↔ (zs : Int) ∣ x := by
  rw [u64_eq x h0 h1]
  conv_rhs => rw [← Int.toNat_of_nonneg h0]
  rw [Int.natCast_dvd_natCast, Nat.dvd_iff_mod_eq_zero]

theorem normalize_id (o : zbd_opts) (cap : Int)
    (h0 : 0 ≤ o.ofst) (hpos : 0 < o.len) (hin : o.ofst + o.len ≤ cap) (hcap : cap < 2 ^ 63) :
    normalize o cap = o := by
  have hw : wrap64 (o.ofst + o.len) = o.ofst + o.len := by
    apply wrap64_eq <;> omega
  have hz : o.len ≠ 0 := by omega
  unfold normalize
  simp only [hz, if_false, hw]
  simp [Int.not_lt.mpr hin]

theorem zbd_mgmt_misaligned (dev : Device) (fd : Int) (o : zbd_opts)
    (hz : o.dev_info.zone_size ≠ 0)
    (hm : u64 o.ofst % o.dev_info.zone_size ≠ 0 ∨ u64 o.len % o.dev_info.zone_size ≠ 0) :
    zbd_mgmt dev fd o = Run.mk (some 1) [Event.stderr Diag.unaligned] := by
  unfold zbd_mgmt
  simp [hz, hm]

theorem zact_action_mgmt (cmd : zbd_cmd) (h : cmd ≠ zbd_cmd.ZBD_REPORT) :
    (zact cmd).action = zbd_mgmt := by
  cases cmd <;> first | rfl | exact absurd rfl h

theorem report_nz_eq (len : Int) (zs nr_zones : Nat)
    (hpos : 0 < len) (hlen : len < 2 ^ 63) (hz : 0 < zs) (hzs : zs ≤ 2 ^ 63)
    (hle : len.toNat ≤ nr_zones * zs) (hnr : nr_zones < 2 ^ 32) :
    report_nz len zs = (len.toNat + zs - 1) / zs ∧ 0 < report_nz len zs ∧
      report_nz len zs ≤ nr_zones := by
  have hu : u64 len = len.toNat := u64_eq len (by omega) (by omega)
  have hn0 : 0 < len.toNat := by omega
  have hn1 : len.toNat < 2 ^ 63 := by omega
  have hm : (len.toNat + zs + (2 ^ 64 - 1)) % 2 ^ 64 = len.toNat + zs - 1 := by omega
  have hq1 : (len.toNat + zs - 1) / zs ≤ nr_zones := by
    apply Nat.lt_succ_iff.mp
    rw [Nat.div_lt_iff_lt_mul hz, Nat.succ_mul]
    omega
  have hq0 : 0 < (len.toNat + zs - 1) / zs := by
    apply Nat.div_pos _ hz
    omega
  have hq : report_nz len zs = (len.toNat + zs - 1) / zs := by
    unfold report_nz u32
    rw [hu, hm]
    apply Nat.mod_eq_of_lt
    omega
  rw [hq]
  exact ⟨rfl, hq0, hq1⟩



theorem print_zones_no_call (o : zbd_opts) (zs : List zbd_zone) :
    transitions (print_zones o zs).trace = [] ∧
      report_queries (print_zones o zs).trace = [] := by
  induction zs with
  | nil => exact ⟨rfl, rfl⟩
  | cons z zs ih =>
    unfold print_zones
    cases zbd_print_zone o z with
    | none => exact ⟨rfl, rfl⟩
    | some out =>
      simp only [transitions, report_queries] at ih ⊢
      simp [List.filter_cons, is_transition, is_report_query, ih.1, ih.2]

theorem dev_info_no_call (o : zbd_opts) (di : Bool) :
    transitions (if di then zbd_print_dev_info o else []) = [] ∧
      report_queries (if di then zbd_print_dev_info o else []) = [] := by
  cases di
  · exact ⟨rfl, rfl⟩
  · simp only [if_true]
    unfold zbd_print_dev_info
    split_ifs <;> exact ⟨rfl, rfl⟩

theorem main_action_transitions (dev : Device) (fd : Int) (o : zbd_opts) (di : Bool) :
    transitions (main_action dev fd o di).trace =
      transitions ((zact o.cmd).action dev fd o).trace := by
  have h := (dev_info_no_call o di).1
  unfold transitions at h ⊢
  unfold main_action
  simp only []
  split <;> simp [List.filter_append, h, is_transition]

theorem main_action_report_queries (dev : Device) (fd : Int) (o : zbd_opts) (di : Bool) :
    report_queries (main_action dev fd o di).trace =
      report_queries ((zact o.cmd).action dev fd o).trace := by
  have h := (dev_info_no_call o di).2
  unfold report_queries at h ⊢
  unfold main_action
  simp only []
  split <;> simp [List.filter_append, h, is_report_query]

theorem zbd_report_transitions (dev : Device) (fd : Int) (o : zbd_opts) :
    transitions (zbd_report dev fd o).trace = [] := by
  have hp := fun zs => (print_zones_no_call o zs).1
  unfold transitions at hp ⊢
  unfold zbd_report
  generalize report_nz o.len o.dev_info.zone_size = nz
  simp only []
  generalize dev.zbd_report_zones fd o.ofst o.len o.rep_opt nz = r
  generalize dev.zbd_report_nr_zones fd o.ofst o.len o.rep_opt = c
  split_ifs
  all_goals first
    | (rw [List.filter_append, hp, List.append_nil]
       simp [is_transition])
    | simp [is_transition]

theorem zbd_report_queries_count (dev : Device) (fd : Int) (o : zbd_opts)
    (h : o.rep_num_zones = true) :
    report_queries (zbd_report dev fd o).trace =
      [Event.call (Call.zbd_report_nr_zones fd o.ofst o.len o.rep_opt)] := by
  unfold zbd_report report_queries
  simp only [h, if_true]
  split_ifs <;> simp [is_report_query]

theorem zbd_report_queries_zones (dev : Device) (fd : Int) (o : zbd_opts)
    (h : o.rep_num_zones = false) (hz : o.dev_info.zone_size ≠ 0)
    (hnz : report_nz o.len o.dev_info.zone_size ≠ 0)
    (hm : dev.calloc_ok (report_nz o.len o.dev_info.zone_size) = true) :
    report_queries (zbd_report dev fd o).trace =
      [Event.call (Call.zbd_report_zones fd o.ofst o.len o.rep_opt
        (report_nz o.len o.dev_info.zone_size))] := by
  have hp := fun zs => (print_zones_no_call o zs).2
  unfold report_queries at hp ⊢
  unfold zbd_report
  generalize report_nz o.len o.dev_info.zone_size = nz at hnz hm ⊢
  simp only [h, hz, hnz, hm, if_false, Bool.false_eq_true, Bool.true_eq_false]
  generalize dev.zbd_report_zones fd o.ofst o.len o.rep_opt nz = r
  split_ifs
  · simp [is_report_query]
  · rw [List.filter_append, hp, List.append_nil]
    simp [is_report_query]
  · rw [List.filter_append, hp, List.append_nil]
    simp [is_report_query]

theorem main_action_mgmt_misaligned (dev : Device) (fd : Int) (o : zbd_opts) (di : Bool)
    (hcmd : o.cmd ≠ zbd_cmd.ZBD_REPORT) (hz : o.dev_info.zone_size ≠ 0)
    (hm : u64 o.ofst % o.dev_info.zone_size ≠ 0 ∨ u64 o.len % o.dev_info.zone_size ≠ 0) :
    main_action dev fd o di = Run.mk (some 1)
      ((if di then zbd_print_dev_info o else []) ++
        [Event.stderr Diag.unaligned, Event.call (Call.zbd_close fd)]) := by
  unfold main_action
  rw [zact_action_mgmt o.cmd hcmd, zbd_mgmt_misaligned dev fd o hz hm]
  simp

theorem normalize_ofst (o : zbd_opts) (cap : Int) : (normalize o cap).ofst = o.ofst := by
  unfold normalize
  simp only []
  split_ifs <;> rfl

theorem normalize_cmd (o : zbd_opts) (cap : Int) : (normalize o cap).cmd = o.cmd := by
  unfold normalize
  simp only []
  split_ifs <;> rfl

theorem normalize_dev_info (o : zbd_opts) (cap : Int) :
    (normalize o cap).dev_info = o.dev_info := by
  unfold normalize
  simp only []
  split_ifs <;> rfl

theorem zbd_mgmt_aligned (dev : Device) (fd : Int) (o : zbd_opts) (c : Call)
    (hz : o.dev_info.zone_size ≠ 0)
    (ha : u64 o.ofst % o.dev_info.zone_size = 0 ∧ u64 o.len % o.dev_info.zone_size = 0)
    (hc : transition_call o.cmd fd o.ofst o.len = some c) :
    transitions (zbd_mgmt dev fd o).trace = [Event.call c] := by
  unfold zbd_mgmt
  simp only [hz, ha.1, ha.2, if_false, ne_eq, not_true_eq_false, or_self]
  cases hcmd : o.cmd <;> rw [hcmd] at hc <;>
    simp only [transition_call, Option.some.injEq, reduceCtorEq] at hc
  all_goals
    subst hc
    simp only [zbd_mgmt_return]
    split_ifs <;> simp [transitions, is_transition]

theorem main_device_action_transitions (dev : Device) (opts : zbd_opts) (di : Bool)
    (h : 0 ≤ opened_fd dev opts) (hu : unit_rejected (opened dev opts) = false)
    (hs : sector_misaligned (opened dev opts) = false)
    (hc : opts.ofst < capacity (opened dev opts).dev_info) :
    transitions (main_device dev opts di).trace =
      transitions ((zact opts.cmd).action dev (opened_fd dev opts)
        (normalize (opened dev opts) (capacity (opened dev opts).dev_info))).trace := by
  rw [main_device_action dev opts di h hu hs hc]
  show transitions (_ :: _) = _
  unfold transitions
  rw [List.filter_cons]
  simp only [is_transition, Bool.false_eq_true, if_false]
  have := main_action_transitions dev (opened_fd dev opts)
    (normalize (opened dev opts) (capacity (opened dev opts).dev_info)) di
  rw [normalize_cmd] at this
  exact this

theorem zact_flags (cmd : zbd_cmd) :
    (zact cmd).flags =
      if cmd = zbd_cmd.ZBD_REPORT then AccessMode.O_RDONLY else AccessMode.O_RDWR := by
  cases cmd <;> rfl

theorem main_device_head (dev : Device) (opts : zbd_opts) (di : Bool) :
    (main_device dev opts di).trace.head? =
      some (Event.call (Call.zbd_open opts.dev_path (open_flags opts.cmd))) := by
  unfold main_device
  simp only []
  split_ifs <;> rfl

/-- C8: for every command the run starts by opening the device, read-only
when the command is report and read-write when it is reset, open, close or
finish; and when the checks of `main` pass (the device opened, the unit is
accepted, offset and length are sector aligned, the offset is below the
capacity) and the zone check of `zbd_mgmt` passes on the offset and the
normalised length, a management command requests exactly one zone
operation, the one of its kind, with that offset and that length. -/
theorem access_mode_and_transition (dev : Device) (opts : zbd_opts) (di : Bool) :
    (main_device dev opts di).trace.head? =
      some (Event.call (Call.zbd_open opts.dev_path
        (OpenFlags.mk
          (if opts.cmd = zbd_cmd.ZBD_REPORT then AccessMode.O_RDONLY else AccessMode.O_RDWR)
          true))) ∧
    (0 ≤ opened_fd dev opts →
      unit_rejected (opened dev opts) = false →
      sector_misaligned (opened dev opts) = false →
      opts.ofst < capacity (opened dev opts).dev_info →
      (opened dev opts).dev_info.zone_size ≠ 0 →
      u64 opts.ofst % (opened dev opts).dev_info.zone_size = 0 →
      u64 (normalize (opened dev opts) (capacity (opened dev opts).dev_info)).len %
        (opened dev opts).dev_info.zone_size = 0 →
      (opts.cmd = zbd_cmd.ZBD_RESET →
        transitions (main_device dev opts di).trace =
          [Event.call (Call.zbd_reset_zones (opened_fd dev opts) opts.ofst
            (normalize (opened dev opts) (capacity (opened dev opts).dev_info)).len)]) ∧
      (opts.cmd = zbd_cmd.ZBD_OPEN →
        transitions (main_device dev opts di).trace =
          [Event.call (Call.zbd_open_zones (opened_fd dev opts) opts.ofst
            (normalize (opened dev opts) (capacity (opened dev opts).dev_info)).len)]) ∧
      (opts.cmd = zbd_cmd.ZBD_CLOSE →
        transitions (main_device dev opts di).trace =
          [Event.call (Call.zbd_close_zones (opened_fd dev opts) opts.ofst
            (normalize (opened dev opts) (capacity (opened dev opts).dev_info)).len)]) ∧
      (opts.cmd = zbd_cmd.ZBD_FINISH →
        transitions (main_device dev opts di).trace =
          [Event.call (Call.zbd_finish_zones (opened_fd dev opts) opts.ofst
            (normalize (opened dev opts) (capacity (opened dev opts).dev_info)).len)])) := by
  constructor
  · rw [main_device_head, open_flags, zact_flags]
  · intro hfd hu hs hc hz hao hal
    have htr := main_device_action_transitions dev opts di hfd hu hs hc
    have hz2 : (normalize (opened dev opts)
        (capacity (opened dev opts).dev_info)).dev_info.zone_size ≠ 0 := by
      rw [normalize_dev_info]
      exact hz
    have ha : u64 (normalize (opened dev opts) (capacity (opened dev opts).dev_info)).ofst %
          (normalize (opened dev opts)
            (capacity (opened dev opts).dev_info)).dev_info.zone_size = 0 ∧
        u64 (normalize (opened dev opts) (capacity (opened dev opts).dev_info)).len %
          (normalize (opened dev opts)
            (capacity (opened dev opts).dev_info)).dev_info.zone_size = 0 := by
      rw [normalize_dev_info, normalize_ofst]
      exact ⟨hao, hal⟩
    have key : ∀ c, transition_call opts.cmd (opened_fd dev opts) opts.ofst
        (normalize (opened dev opts) (capacity (opened dev opts).dev_info)).len = some c →
        transitions (main_device dev opts di).trace = [Event.call c] := by
      intro c hcall
      have hne : opts.cmd ≠ zbd_cmd.ZBD_REPORT := by
        intro hrep
        rw [hrep] at hcall
        simp [transition_call] at hcall
      rw [htr, zact_action_mgmt opts.cmd hne]
      apply zbd_mgmt_aligned dev _ _ c hz2 ha
      rw [normalize_cmd, normalize_ofst]
      exact hcall
    refine ⟨?_, ?_, ?_, ?_⟩ <;> intro hcmd <;> apply key <;> rw [hcmd] <;> rfl

theorem access_mode_and_transition_witness :
    (0 ≤ opened_fd (sample_device (2 ^ 21) (2 ^ 28) 4 0)
      (sample_opts zbd_cmd.ZBD_FINISH (2 ^ 28) (2 ^ 29))) ∧
    transitions (main_device (sample_device (2 ^ 21) (2 ^ 28) 4 0)
      (sample_opts zbd_cmd.ZBD_FINISH (2 ^ 28) (2 ^ 29)) false).trace =
      [Event.call (Call.zbd_finish_zones 3 (2 ^ 28) (2 ^ 29))] :=
  ⟨by decide,
    ((access_mode_and_transition (sample_device (2 ^ 21) (2 ^ 28) 4 0)
      (sample_opts zbd_cmd.ZBD_FINISH (2 ^ 28) (2 ^ 29)) false).2
      (by decide) (by decide) (by decide) (by decide) (by decide) (by decide)
      (by decide)).2.2.2 (by decide)⟩

theorem zbd_mgmt_transitions_nonempty (dev : Device) (fd : Int) (o : zbd_opts)
    (h : transitions (zbd_mgmt dev fd o).trace ≠ []) :
    o.cmd ≠ zbd_cmd.ZBD_REPORT ∧ o.dev_info.zone_size ≠ 0 ∧
      u64 o.ofst % o.dev_info.zone_size = 0 ∧ u64 o.len % o.dev_info.zone_size = 0 := by
  unfold zbd_mgmt at h
  by_cases hz : o.dev_info.zone_size = 0
  · rw [if_pos hz] at h
    exact absurd rfl h
  · rw [if_neg hz] at h
    by_cases hm : u64 o.ofst % o.dev_info.zone_size ≠ 0 ∨ u64 o.len % o.dev_info.zone_size ≠ 0
    · rw [if_pos hm] at h
      exact absurd rfl h
    · rw [if_neg hm] at h
      have hm2 := not_or.mp hm
      refine ⟨?_, hz, not_not.mp hm2.1, not_not.mp hm2.2⟩
      intro hc
      rw [hc] at h
      exact absurd rfl h

/-- The part of C5 that holds on every run: a zone operation is requested
only after the device opened, the unit was accepted, offset and length were
found sector aligned, the offset was found below the capacity, and the zone
check of `zbd_mgmt` passed on the offset and the normalised length. -/
theorem transition_only_after_checks (dev : Device) (opts : zbd_opts) (di : Bool)
    (h : transitions (main_device dev opts di).trace ≠ []) :
    0 ≤ opened_fd dev opts ∧ unit_rejected (opened dev opts) = false ∧
      sector_misaligned (opened dev opts) = false ∧
      opts.ofst < capacity (opened dev opts).dev_info ∧
      opts.cmd ≠ zbd_cmd.ZBD_REPORT ∧
      (opened dev opts).dev_info.zone_size ≠ 0 ∧
      u64 opts.ofst % (opened dev opts).dev_info.zone_size = 0 ∧
      u64 (normalize (opened dev opts) (capacity (opened dev opts).dev_info)).len %
        (opened dev opts).dev_info.zone_size = 0 := by
  by_cases hfd : opened_fd dev opts < 0
  · rw [main_device_open_failed dev opts di hfd] at h
    exact absurd rfl h
  · have h0 : 0 ≤ opened_fd dev opts := Int.not_lt.mp hfd
    cases hu : unit_rejected (opened dev opts) with
    | true =>
      rw [main_device_unit_rejected dev opts di h0 hu] at h
      exact absurd rfl h
    | false =>
      cases hs : sector_misaligned (opened dev opts) with
      | true =>
        rw [main_device_misaligned dev opts di h0 hu hs] at h
        exact absurd rfl h
      | false =>
        by_cases hc : capacity (opened dev opts).dev_info ≤ opts.ofst
        · rw [main_device_beyond dev opts di h0 hu hs hc] at h
          exact absurd rfl h
        · have hc2 : opts.ofst < capacity (opened dev opts).dev_info := Int.not_le.mp hc
          rw [main_device_action_transitions dev opts di h0 hu hs hc2] at h
          have hcmd : opts.cmd ≠ zbd_cmd.ZBD_REPORT := by
            intro hrep
            apply h
            rw [hrep]
            exact zbd_report_transitions dev _ _
          rw [zact_action_mgmt opts.cmd hcmd] at h
          have hm := zbd_mgmt_transitions_nonempty dev _ _ h
          rw [normalize_dev_info, normalize_ofst] at hm
          exact ⟨h0, rfl, rfl, hc2, hcmd, hm.2.1, hm.2.2.1, hm.2.2.2⟩

/-- C5, evaluated where it fails: `zbd reset -ofst -268435456 -len 268435456
/dev/x` on a device with zones of 2^28 bytes passes every check of `main`
and of `zbd_mgmt`, and the reset is requested for the range that starts
2^28 bytes before the device. -/
theorem transition_before_device_start :
    main (sample_device (2 ^ 21) (2 ^ 28) 4 0)
      ["zbd", "reset", "-ofst", "-268435456", "-len", "268435456", "/dev/x"] =
      Run.mk (some 0)
        [Event.call (Call.zbd_open "/dev/x" (OpenFlags.mk AccessMode.O_RDWR true)),
          Event.call (Call.zbd_reset_zones 3 (-268435456) 268435456),
          Event.call (Call.zbd_close 3)] := by
  decide

theorem unit_rejected_iff (o : zbd_opts) :
    unit_rejected o = false ↔ spec_unit_valid o.unit o.dev_info.zone_size := by
  unfold unit_rejected spec_unit_valid
  rw [decide_eq_false_iff_not, Nat.dvd_iff_mod_eq_zero]
  constructor
  · intro h
    by_cases h1 : o.unit = 1
    · exact Or.inl h1
    · by_cases h0 : o.unit = 0
      · right
        rw [h0]
        exact ⟨rfl, Nat.zero_le _⟩
      · right
        have hgt : o.unit > 1 := by omega
        by_contra hc
        apply h
        refine ⟨hgt, ?_⟩
        by_cases hle : o.unit > o.dev_info.zone_size
        · exact Or.inl hle
        · right
          intro hm
          exact hc ⟨hm, by omega⟩
  · rintro (h | ⟨hm, hle⟩) ⟨hgt, hbad⟩
    · omega
    · rcases hbad with hb | hb
      · omega
      · exact hb hm

/-- C6: for every device that opened and every unit, the unit check of
`main` accepts the unit exactly when it is 1 or a multiple of 512 that does
not exceed the zone size; any other unit makes `main` return 1 with the
"Invalid unit" diagnostic, having only opened and closed the device; an
accepted unit lets `main` go on to the offset and length checks. -/
theorem unit_validation (dev : Device) (opts : zbd_opts) (di : Bool)
    (hfd : 0 ≤ opened_fd dev opts) :
    (unit_rejected (opened dev opts) = false ↔
      spec_unit_valid opts.unit (opened dev opts).dev_info.zone_size) ∧
    (¬ spec_unit_valid opts.unit (opened dev opts).dev_info.zone_size →
      main_device dev opts di = Run.mk (some 1)
        [Event.call (Call.zbd_open opts.dev_path (open_flags opts.cmd)),
          Event.stderr Diag.invalid_unit,
          Event.call (Call.zbd_close (opened_fd dev opts))] ∧
      transitions (main_device dev opts di).trace = [] ∧
      report_queries (main_device dev opts di).trace = [] ∧
      outputs (main_device dev opts di).trace = []) ∧
    (spec_unit_valid opts.unit (opened dev opts).dev_info.zone_size →
      main_device dev opts di =
        if sector_misaligned (opened dev opts) = true then
          Run.mk (some 1)
            [Event.call (Call.zbd_open opts.dev_path (open_flags opts.cmd)),
              Event.stderr Diag.unaligned,
              Event.call (Call.zbd_close (opened_fd dev opts))]
        else if opts.ofst ≥ capacity (opened dev opts).dev_info then
          Run.mk (some 0)
            [Event.call (Call.zbd_open opts.dev_path (open_flags opts.cmd)),
              Event.call (Call.zbd_close (opened_fd dev opts))]
        else
          Run.mk (main_action dev (opened_fd dev opts)
              (normalize (opened dev opts) (capacity (opened dev opts).dev_info)) di).ret
            (Event.call (Call.zbd_open opts.dev_path (open_flags opts.cmd)) ::
              (main_action dev (opened_fd dev opts)
                (normalize (opened dev opts) (capacity (opened dev opts).dev_info)) di).trace)) := by
  have hiff := unit_rejected_iff (opened dev opts)
  refine ⟨hiff, ?_, ?_⟩
  · intro hbad
    have hu : unit_rejected (opened dev opts) = true := by
      cases h : unit_rejected (opened dev opts)
      · exact absurd (hiff.mp h) hbad
      · rfl
    rw [main_device_unit_rejected dev opts di hfd hu]
    exact ⟨rfl, rfl, rfl, rfl⟩
  · intro hok
    have hu : unit_rejected (opened dev opts) = false := hiff.mpr hok
    cases hs : sector_misaligned (opened dev opts)
    · by_cases hc : opts.ofst ≥ capacity (opened dev opts).dev_info
      · rw [main_device_beyond dev opts di hfd hu hs hc]
        simp [hc]
      · rw [main_device_action dev opts di hfd hu hs (Int.not_le.mp hc)]
        simp [hc]
    · rw [main_device_misaligned dev opts di hfd hu hs]
      simp

theorem unit_validation_witness :
    (0 ≤ opened_fd (sample_device (2 ^ 21) (2 ^ 28) 4 0)
      { sample_opts zbd_cmd.ZBD_REPORT 0 0 with unit := 1000 }) ∧
    ¬ spec_unit_valid 1000 (2 ^ 28) ∧
    (main_device (sample_device (2 ^ 21) (2 ^ 28) 4 0)
      { sample_opts zbd_cmd.ZBD_REPORT 0 0 with unit := 1000 } false).ret = some 1 :=
  ⟨by decide, by unfold spec_unit_valid; decide,
    congrArg Run.ret
      (((unit_validation (sample_device (2 ^ 21) (2 ^ 28) 4 0)
        { sample_opts zbd_cmd.ZBD_REPORT 0 0 with unit := 1000 } false (by decide)).2.1
        (by unfold spec_unit_valid; decide)).1)⟩

/-- C7, evaluated where it fails: when the device answers -1 to the reset
request of `zbd reset /dev/x`, `zbd_mgmt` writes the failure diagnostic and
returns that answer, and `main` returns -1. -/
theorem transition_failure_result :
    main (sample_device (2 ^ 21) (2 ^ 28) 4 (-1)) ["zbd", "reset", "/dev/x"] =
      Run.mk (some (-1))
        [Event.call (Call.zbd_open "/dev/x" (OpenFlags.mk AccessMode.O_RDWR true)),
          Event.call (Call.zbd_reset_zones 3 0 1073741824),
          Event.stderr Diag.zone_operation_failed,
          Event.call (Call.zbd_close 3)] := by
  decide

theorem parse_options_keeps_rep_opt (args : List String) (opts : zbd_opts) (di : Bool)
    (tr : List Event) (hro : "-ro" ∉ args) :
    ∀ path o di2 tr2, parse_options args opts di tr = Parsed.device path o di2 tr2 →
      o.rep_opt = opts.rep_opt := by
  induction args, opts, di, tr using parse_options.induct
  all_goals intro path o di2 tr2 h
  all_goals rw [parse_options] at h
  all_goals try simp only [*, if_true, if_false, reduceCtorEq] at h
  all_goals first
    | exact absurd (List.mem_cons_self _ _) hro
    | (cases h
       rfl)
    | (rename_i ih
       exact ih (fun hm => hro (List.mem_cons_of_mem _ hm)) path o di2 tr2 h)
    | (rename_i ih
       exact ih (fun hm => hro (List.mem_cons_of_mem _ (List.mem_cons_of_mem _ hm)))
         path o di2 tr2 h)

theorem parse_options_fail_trace (args : List String) (opts : zbd_opts) (di : Bool)
    (tr : List Event) (h0 : tr.filter is_open = []) :
    ∀ tr2, parse_options args opts di tr = Parsed.fail tr2 → tr2.filter is_open = [] := by
  induction args, opts, di, tr using parse_options.induct
  all_goals intro tr2 h
  all_goals rw [parse_options] at h
  all_goals try simp only [*, if_true, if_false, reduceCtorEq, Parsed.fail.injEq] at h
  all_goals first
    | (subst h
       rw [List.filter_append, h0]
       rfl)
    | (rename_i ih
       exact ih h0 tr2 h)
    | (rename_i ih
       refine ih ?_ tr2 h
       rw [List.filter_append, h0]
       rfl)

theorem rep_opt_of_code_none (s : String)
    (h : s ∉ ["em", "oi", "oe", "cl", "fu", "ro", "ol", "nw", "ns", "rw"]) :
    rep_opt_of_code s = none := by
  simp only [List.mem_cons, List.mem_singleton, not_or, List.not_mem_nil, or_false] at h
  obtain ⟨h1, h2, h3, h4, h5, h6, h7, h8, h9, h10⟩ := h
  simp only [rep_opt_of_code, h1, h2, h3, h4, h5, h6, h7, h8, h9, h10, if_false]

/-- C9: the argument of `-ro` selects the report filter by the table em,
oi, oe, cl, fu, ro, ol, nw, ns, rw; an `-ro` with one of these codes stores
that filter and parsing goes on after the code; without any `-ro` argument
the filter that reaches the device is "all zones"; any other code stops
option parsing with the "Unknown report option" diagnostic, and an
invocation whose option parsing stops returns 1 with no call of `zbd_open`
in its trace. -/
theorem report_option_parsing :
    (rep_opt_of_code "em" = some zbd_report_option.ZBD_RO_EMPTY ∧
      rep_opt_of_code "oi" = some zbd_report_option.ZBD_RO_IMP_OPEN ∧
      rep_opt_of_code "oe" = some zbd_report_option.ZBD_RO_EXP_OPEN ∧
      rep_opt_of_code "cl" = some zbd_report_option.ZBD_RO_CLOSED ∧
      rep_opt_of_code "fu" = some zbd_report_option.ZBD_RO_FULL ∧
      rep_opt_of_code "ro" = some zbd_report_option.ZBD_RO_RDONLY ∧
      rep_opt_of_code "ol" = some zbd_report_option.ZBD_RO_OFFLINE ∧
      rep_opt_of_code "nw" = some zbd_report_option.ZBD_RO_NOT_WP ∧
      rep_opt_of_code "ns" = some zbd_report_option.ZBD_RO_NON_SEQ ∧
      rep_opt_of_code "rw" = some zbd_report_option.ZBD_RO_RWP_RECOMMENDED) ∧
    (∀ (b : String) (rest : List String) (opts : zbd_opts) (di : Bool) (tr : List Event)
        (ro : zbd_report_option), rep_opt_of_code b = some ro →
      parse_options ("-ro" :: b :: rest) opts di tr =
        parse_options rest { opts with rep_opt := ro } di tr) ∧
    (∀ (dev : Device) (p a1 code path : String) (cmd : zbd_cmd) (ro : zbd_report_option),
      cmd_of_arg a1 = some cmd → rep_opt_of_code code = some ro →
      main dev [p, a1, "-ro", code, path] =
        Run.mk (main_device dev
            { initial_opts cmd with rep_opt := ro, dev_path := path } false).ret
          (main_device dev
            { initial_opts cmd with rep_opt := ro, dev_path := path } false).trace) ∧
    (∀ (cmd : zbd_cmd), (initial_opts cmd).rep_opt = zbd_report_option.ZBD_RO_ALL) ∧
    (∀ (cmd : zbd_cmd) (args : List String) (path : String) (o : zbd_opts) (di : Bool)
        (tr : List Event), "-ro" ∉ args →
      parse_options args (initial_opts cmd) false [] = Parsed.device path o di tr →
      o.rep_opt = zbd_report_option.ZBD_RO_ALL) ∧
    (∀ (b : String) (rest : List String) (opts : zbd_opts) (di : Bool) (tr : List Event),
      b ∉ ["em", "oi", "oe", "cl", "fu", "ro", "ol", "nw", "ns", "rw"] →
      parse_options ("-ro" :: b :: rest) opts di tr =
        Parsed.fail (tr ++ [Event.stderr (Diag.unknown_report_option b)])) ∧
    (∀ (dev : Device) (p a1 a2 : String) (rest : List String) (cmd : zbd_cmd)
        (tr : List Event), cmd_of_arg a1 = some cmd →
      parse_options (a2 :: rest) (initial_opts cmd) false [] = Parsed.fail tr →
      main dev (p :: a1 :: a2 :: rest) = Run.mk (some 1) tr ∧ tr.filter is_open = []) ∧
    (∀ (dev : Device) (p a1 code : String) (rest : List String),
      code ∉ ["em", "oi", "oe", "cl", "fu", "ro", "ol", "nw", "ns", "rw"] →
      (main dev (p :: a1 :: "-ro" :: code :: rest)).ret = some 1 ∧
      (main dev (p :: a1 :: "-ro" :: code :: rest)).trace.filter is_open = []) := by
  refine ⟨by decide, ?_, ?_, fun _ => rfl, ?_, ?_, ?_, ?_⟩
  · intro b rest opts di tr ro h
    rw [parse_options]
    simp [h]
  · intro dev p a1 code path cmd ro hcmd hro
    simp only [main, hcmd]
    rw [parse_options]
    simp only [hro, parse_options]
    simp
  · intro cmd args path o di tr hro h
    exact parse_options_keeps_rep_opt args (initial_opts cmd) false [] hro path o di tr h
  · intro b rest opts di tr hb
    rw [parse_options]
    simp [rep_opt_of_code_none b hb]
  · intro dev p a1 a2 rest cmd tr hcmd h
    constructor
    · simp only [main, hcmd, h]
    · exact parse_options_fail_trace (a2 :: rest) (initial_opts cmd) false [] rfl tr h
  · intro dev p a1 code rest hb
    cases hcmd : cmd_of_arg a1 with
    | none =>
      simp [main, hcmd, is_open]
    | some cmd =>
      simp only [main, hcmd]
      rw [parse_options]
      simp only [rep_opt_of_code_none code hb]
      simp [is_open]

theorem report_option_parsing_witness :
    "xx" ∉ ["em", "oi", "oe", "cl", "fu", "ro", "ol", "nw", "ns", "rw"] ∧
    (main (sample_device (2 ^ 21) (2 ^ 28) 4 0)
      ("zbd" :: "report" :: "-ro" :: "xx" :: ["/dev/x"])).ret = some 1 :=
  ⟨by decide,
    (report_option_parsing.2.2.2.2.2.2.2 (sample_device (2 ^ 21) (2 ^ 28) 4 0)
      "zbd" "report" "xx" ["/dev/x"] (by decide)).1⟩

theorem outputs_append (a b : List Event) : outputs (a ++ b) = outputs a ++ outputs b := by
  induction a with
  | nil => rfl
  | cons e a ih =>
    cases e with
    | stderr d => simpa [outputs] using ih
    | stdout o => simp [outputs, ih]
    | call c => simpa [outputs] using ih

theorem zone_numbers_append (a b : List Event) :
    zone_numbers (a ++ b) = zone_numbers a ++ zone_numbers b := by
  unfold zone_numbers
  rw [outputs_append, List.filterMap_append]

theorem zbd_print_zone_some (o : zbd_opts) (z : zbd_zone)
    (hz : o.dev_info.zone_size ≠ 0) (hu : o.unit ≠ 0) :
    ∃ out, zbd_print_zone o z = some out ∧
      zone_number out = some (u32 (z.start / o.dev_info.zone_size)) := by
  unfold zbd_print_zone
  simp only [hz, hu, if_false]
  split_ifs <;> exact ⟨_, rfl, rfl⟩

theorem print_zones_ok (o : zbd_opts) (hz : o.dev_info.zone_size ≠ 0) (hu : o.unit ≠ 0)
    (l : List zbd_zone) :
    (print_zones o l).ret = some 0 ∧
      zone_numbers (print_zones o l).trace =
        l.map (fun z => u32 (z.start / o.dev_info.zone_size)) := by
  induction l with
  | nil => exact ⟨rfl, rfl⟩
  | cons z l ih =>
    obtain ⟨out, hout, hno⟩ := zbd_print_zone_some o z hz hu
    rw [print_zones, hout]
    refine ⟨ih.1, ?_⟩
    show zone_numbers (Event.stdout out :: (print_zones o l).trace) = _
    have hsplit : Event.stdout out :: (print_zones o l).trace =
        [Event.stdout out] ++ (print_zones o l).trace := rfl
    rw [hsplit, zone_numbers_append, ih.2, List.map_cons]
    simp [zone_numbers, outputs, hno]

theorem zbd_report_zones_ok (dev : Device) (fd : Int) (o : zbd_opts)
    (h : o.rep_num_zones = false) (hz : o.dev_info.zone_size ≠ 0)
    (hnz : report_nz o.len o.dev_info.zone_size ≠ 0)
    (hm : dev.calloc_ok (report_nz o.len o.dev_info.zone_size) = true)
    (hr : (dev.zbd_report_zones fd o.ofst o.len o.rep_opt
      (report_nz o.len o.dev_info.zone_size)).1 = 0) :
    zbd_report dev fd o =
      Run.mk
        (print_zones o ((dev.zbd_report_zones fd o.ofst o.len o.rep_opt
          (report_nz o.len o.dev_info.zone_size)).2.take
            (report_nz o.len o.dev_info.zone_size))).ret
        (Event.call (Call.zbd_report_zones fd o.ofst o.len o.rep_opt
            (report_nz o.len o.dev_info.zone_size)) ::
          (if o.rep_csv = true then [Event.stdout Out.csv_header] else []) ++
          (print_zones o ((dev.zbd_report_zones fd o.ofst o.len o.rep_opt
            (report_nz o.len o.dev_info.zone_size)).2.take
              (report_nz o.len o.dev_info.zone_size))).trace) := by
  unfold zbd_report
  generalize report_nz o.len o.dev_info.zone_size = nz at hnz hm hr ⊢
  simp only [h, hz, hnz, hm, hr, if_false, Bool.false_eq_true, Bool.true_eq_false, ne_eq,
    not_true_eq_false]

theorem main_action_ret (dev : Device) (fd : Int) (o : zbd_opts) (di : Bool) :
    (main_action dev fd o di).ret = ((zact o.cmd).action dev fd o).ret := by
  unfold main_action
  simp only []
  split <;> simp_all

theorem main_action_zone_numbers (dev : Device) (fd : Int) (o : zbd_opts) (di : Bool) :
    zone_numbers (main_action dev fd o di).trace =
      zone_numbers ((zact o.cmd).action dev fd o).trace := by
  have hinfo : zone_numbers (if di then zbd_print_dev_info o else []) = [] := by
    cases di
    · rfl
    · simp only [if_true]
      unfold zbd_print_dev_info
      split_ifs <;> rfl
  unfold main_action
  simp only []
  split
  · rw [zone_numbers_append, hinfo, List.nil_append]
  · rw [zone_numbers_append, zone_numbers_append, hinfo, List.nil_append]
    simp [zone_numbers, outputs]

theorem ceil_eq_nr_zones (cap zs nr : Nat) (hz : 0 < zs) (hcap : 0 < cap)
    (hle : cap ≤ nr * zs) (hmin : (nr - 1) * zs < cap) :
    (cap + zs - 1) / zs = nr := by
  have hnr : nr ≠ 0 := by
    intro h
    rw [h] at hle
    omega
  obtain ⟨k, rfl⟩ := Nat.exists_eq_succ_of_ne_zero hnr
  simp only [Nat.succ_sub_one] at hmin
  rw [Nat.succ_mul] at hle
  apply Nat.div_eq_of_lt_le
  · rw [Nat.succ_mul]
    omega
  · rw [Nat.succ_mul, Nat.succ_mul]
    omega

/-- C10, as the code has it: on a device that opened with a geometry that
satisfies the data-model invariant and whose zone count is the least one
that covers the capacity (`(zone_count - 1) * zone_size < capacity`), a
report request with offset 0, length 0 and filter "all", with an accepted
non-zero unit, queries the range `[0, capacity)` asking for exactly
`zone_count` descriptors; when the allocation succeeds and the device
answers with its zones in ascending order (zone `i` starting at
`i * zone_size`), `main` returns 0 and the zone lines printed carry the zone
numbers `0, 1, ..., zone_count - 1` in this order. -/
theorem full_report (dev : Device) (opts : zbd_opts) (di : Bool)
    (hcmd : opts.cmd = zbd_cmd.ZBD_REPORT)
    (hofst : opts.ofst = 0) (hlen : opts.len = 0)
    (hro : opts.rep_opt = zbd_report_option.ZBD_RO_ALL)
    (hn : opts.rep_num_zones = false)
    (hfd : 0 ≤ opened_fd dev opts)
    (hu : unit_rejected (opened dev opts) = false) (hu0 : opts.unit ≠ 0)
    (hg : geometry_invariant (opened dev opts).dev_info)
    (hmin : ((opened dev opts).dev_info.nr_zones - 1) * (opened dev opts).dev_info.zone_size <
      (opened dev opts).dev_info.nr_sectors * 512)
    (hm : dev.calloc_ok (opened dev opts).dev_info.nr_zones = true)
    (hret : (dev.zbd_report_zones (opened_fd dev opts) 0
      (((opened dev opts).dev_info.nr_sectors * 512 : Nat) : Int)
      zbd_report_option.ZBD_RO_ALL (opened dev opts).dev_info.nr_zones).1 = 0)
    (hzones : (dev.zbd_report_zones (opened_fd dev opts) 0
      (((opened dev opts).dev_info.nr_sectors * 512 : Nat) : Int)
      zbd_report_option.ZBD_RO_ALL (opened dev opts).dev_info.nr_zones).2.map zbd_zone.start =
        (List.range (opened dev opts).dev_info.nr_zones).map
          (fun i => i * (opened dev opts).dev_info.zone_size)) :
    (main_device dev opts di).ret = some 0 ∧
    report_queries (main_device dev opts di).trace =
      [Event.call (Call.zbd_report_zones (opened_fd dev opts) 0
        (((opened dev opts).dev_info.nr_sectors * 512 : Nat) : Int)
        zbd_report_option.ZBD_RO_ALL (opened dev opts).dev_info.nr_zones)] ∧
    zone_numbers (main_device dev opts di).trace =
      List.range (opened dev opts).dev_info.nr_zones := by
  obtain ⟨hz, hzs, hcap, hnr, hinv⟩ := hg
  generalize hfdv : opened_fd dev opts = fd at *
  generalize hov : opened dev opts = o at *
  have ho_ofst : o.ofst = 0 := by rw [← hov]; exact hofst
  have ho_len : o.len = 0 := by rw [← hov]; exact hlen
  have ho_ro : o.rep_opt = zbd_report_option.ZBD_RO_ALL := by rw [← hov]; exact hro
  have ho_n : o.rep_num_zones = false := by rw [← hov]; exact hn
  have ho_cmd : o.cmd = zbd_cmd.ZBD_REPORT := by rw [← hov]; exact hcmd
  have ho_unit : o.unit ≠ 0 := by rw [← hov]; exact hu0
  have hs : sector_misaligned o = false :=
    (sector_aligned_iff _).mpr ⟨by rw [ho_ofst]; exact dvd_zero _, by rw [ho_len]; exact dvd_zero _⟩
  have hceq := capacity_eq o.dev_info hcap
  have hcpos : 0 < o.dev_info.nr_sectors * 512 := by omega
  have hcc : opts.ofst < capacity o.dev_info := by
    rw [hceq, hofst]
    omega
  have hmain := main_device_action dev opts di (by rw [hfdv]; exact hfd)
    (by rw [hov]; exact hu) (by rw [hov]; exact hs) (by rw [hov]; exact hcc)
  rw [hfdv, hov, hceq] at hmain
  have hnorm : normalize o ((o.dev_info.nr_sectors * 512 : Nat) : Int) =
      { o with len := ((o.dev_info.nr_sectors * 512 : Nat) : Int) } := by
    rw [normalize_eq_spec o _ (by omega) (by omega) (by omega) (by omega) (by omega)]
    simp [spec_normalized_len, ho_len, ho_ofst]
  rw [hnorm] at hmain
  have hnzall := report_nz_eq ((o.dev_info.nr_sectors * 512 : Nat) : Int) o.dev_info.zone_size
    o.dev_info.nr_zones (by omega) (by omega) hz hzs (by rw [Int.toNat_ofNat]; exact hinv) hnr
  have hnz : report_nz ((o.dev_info.nr_sectors * 512 : Nat) : Int) o.dev_info.zone_size =
      o.dev_info.nr_zones := by
    rw [hnzall.1, Int.toNat_ofNat]
    exact ceil_eq_nr_zones _ _ _ hz hcpos hinv hmin
  have hnr0 : o.dev_info.nr_zones ≠ 0 := by
    have := hnzall.2.1
    omega
  generalize ho2 : ({ o with len := ((o.dev_info.nr_sectors * 512 : Nat) : Int) } : zbd_opts) = o2
    at hmain
  have h2_info : o2.dev_info = o.dev_info := by rw [← ho2]
  have h2_ofst : o2.ofst = 0 := by rw [← ho2]; exact ho_ofst
  have h2_len : o2.len = ((o.dev_info.nr_sectors * 512 : Nat) : Int) := by rw [← ho2]
  have h2_ro : o2.rep_opt = zbd_report_option.ZBD_RO_ALL := by rw [← ho2]; exact ho_ro
  have h2_n : o2.rep_num_zones = false := by rw [← ho2]; exact ho_n
  have h2_cmd : o2.cmd = zbd_cmd.ZBD_REPORT := by rw [← ho2]; exact ho_cmd
  have h2_unit : o2.unit ≠ 0 := by rw [← ho2]; exact ho_unit
  have h2_nz : report_nz o2.len o2.dev_info.zone_size = o.dev_info.nr_zones := by
    rw [h2_len, h2_info]
    exact hnz
  have hzact : (zact o2.cmd).action = zbd_report := by
    rw [h2_cmd]
    rfl
  have hrep := zbd_report_zones_ok dev fd o2 h2_n (by rw [h2_info]; omega)
    (by rw [h2_nz]; exact hnr0) (by rw [h2_nz]; exact hm)
    (by rw [h2_nz, h2_ofst, h2_len, h2_ro]; exact hret)
  rw [h2_nz, h2_ofst, h2_len, h2_ro] at hrep
  generalize hrv : dev.zbd_report_zones fd 0 ((o.dev_info.nr_sectors * 512 : Nat) : Int)
    zbd_report_option.ZBD_RO_ALL o.dev_info.nr_zones = r at hrep hret hzones
  have hlenr : r.2.length = o.dev_info.nr_zones := by
    have := congrArg List.length hzones
    simpa using this
  rw [List.take_of_length_le (by omega)] at hrep
  have hp := print_zones_ok o2 (by rw [h2_info]; omega) h2_unit r.2
  rw [hmain]
  refine ⟨?_, ?_, ?_⟩
  · show (main_action dev fd o2 di).ret = some 0
    rw [main_action_ret, hzact, hrep]
    exact hp.1
  · show report_queries (_ :: _) = _
    have hq := main_action_report_queries dev fd o2 di
    rw [hzact, zbd_report_queries_zones dev fd o2 h2_n (by rw [h2_info]; omega)
      (by rw [h2_nz]; exact hnr0) (by rw [h2_nz]; exact hm), h2_nz, h2_ofst, h2_len, h2_ro] at hq
    unfold report_queries at hq ⊢
    rw [List.filter_cons]
    simp only [is_report_query, Bool.false_eq_true, if_false]
    exact hq
  · show zone_numbers (_ :: _) = _
    have hsplit : ∀ (e : Event) (l : List Event), e :: l = [e] ++ l := fun _ _ => rfl
    rw [hsplit, zone_numbers_append, main_action_zone_numbers, hzact, hrep]
    show _ ++ zone_numbers (_ :: (_ ++ _)) = _
    rw [hsplit _ (_ ++ _), zone_numbers_append, zone_numbers_append, hp.2, h2_info]
    have hhead : zone_numbers
        (if o2.rep_csv = true then [Event.stdout Out.csv_header] else []) = [] := by
      split_ifs <;> rfl
    rw [hhead]
    have hmap : r.2.map (fun z => u32 (z.start / o.dev_info.zone_size)) =
        (r.2.map zbd_zone.start).map (fun s => u32 (s / o.dev_info.zone_size)) := by
      rw [List.map_map]
      rfl
    rw [hmap, hzones, List.map_map]
    have hid : ∀ i ∈ List.range o.dev_info.nr_zones,
        ((fun s => u32 (s / o.dev_info.zone_size)) ∘ fun i => i * o.dev_info.zone_size) i =
          id i := by
      intro i hi
      have hi2 : i < o.dev_info.nr_zones := List.mem_range.mp hi
      simp only [Function.comp, id]
      rw [Nat.mul_div_cancel _ hz]
      unfold u32
      apply Nat.mod_eq_of_lt
      omega
    rw [List.map_congr_left hid, List.map_id]
    simp [zone_numbers, outputs]

theorem full_report_witness :
    geometry_invariant (zbd_info.mk (2 ^ 21) (2 ^ 28) 4 []) ∧
    (4 - 1) * 2 ^ 28 < 2 ^ 21 * 512 ∧
    report_queries (main_device (sample_device (2 ^ 21) (2 ^ 28) 4 0)
      (sample_opts zbd_cmd.ZBD_REPORT 0 0) false).trace =
      [Event.call (Call.zbd_report_zones 3 0 (2 ^ 30) zbd_report_option.ZBD_RO_ALL 4)] ∧
    zone_numbers (main_device (sample_device (2 ^ 21) (2 ^ 28) 4 0)
      (sample_opts zbd_cmd.ZBD_REPORT 0 0) false).trace = [0, 1, 2, 3] :=
  ⟨by decide, by decide,
    (full_report (sample_device (2 ^ 21) (2 ^ 28) 4 0)
      (sample_opts zbd_cmd.ZBD_REPORT 0 0) false
      (by decide) (by decide) (by decide) (by decide) (by decide) (by decide) (by decide)
      (by decide) (by decide) (by decide) (by decide) (by decide) (by decide)).2⟩

/-- C10 as stated fails: the geometry of 5 zones of 2^28 bytes (a power of
two, a multiple of 512) with a capacity of 2^30 bytes satisfies
`zone_count * zone_size >= capacity`, and `zbd report /dev/x` asks for 4
descriptors, not 5, and prints 4 zones. -/
theorem full_report_counterexample :
    geometry_invariant (zbd_info.mk (2 ^ 21) (2 ^ 28) 5 []) ∧
    512 ∣ (zbd_info.mk (2 ^ 21) (2 ^ 28) 5 []).zone_size ∧
    (sample_device (2 ^ 21) (2 ^ 28) 5 0).zbd_open "/dev/x"
      (open_flags zbd_cmd.ZBD_REPORT) = (3, zbd_info.mk (2 ^ 21) (2 ^ 28) 5 []) ∧
    report_queries (main (sample_device (2 ^ 21) (2 ^ 28) 5 0)
      ["zbd", "report", "/dev/x"]).trace =
      [Event.call (Call.zbd_report_zones 3 0 1073741824 zbd_report_option.ZBD_RO_ALL 4)] ∧
    zone_numbers (main (sample_device (2 ^ 21) (2 ^ 28) 5 0)
      ["zbd", "report", "/dev/x"]).trace = [0, 1, 2, 3] := by
  decide

/-- C11, as the code has it: for every zone whose zone number
`start / zone_size` and type code fit an `unsigned int`, on a device with a
non-zero zone size and for every non-zero unit, the CSV line of
`zbd_print_zone` carries, in order, the zone number `start / zone_size`, the
type code, `start / unit`, `len / unit`, `capacity / unit`, `wp / unit`, the
condition code, the non-seq flag as 0 or 1 and the reset flag as 0 or 1;
every quotient is the floor of the exact quotient (for the unit 512 a length
`L` gives `L / 512`). -/
theorem csv_zone_line (opts : zbd_opts) (z : zbd_zone)
    (hcsv : opts.rep_csv = true) (hz : opts.dev_info.zone_size ≠ 0) (hu : opts.unit ≠ 0)
    (hidx : z.start / opts.dev_info.zone_size < 2 ^ 32) (htype : z.type < 2 ^ 32) :
    zbd_print_zone opts z =
      some (Out.zone_csv (z.start / opts.dev_info.zone_size) z.type
        (z.start / opts.unit) (z.len / opts.unit) (z.capacity / opts.unit)
        (z.wp / opts.unit) z.cond
        (if z.non_seq_resources then 1 else 0) (if z.rwp_recommended then 1 else 0)) ∧
    (∀ L : Nat, opts.unit * (L / opts.unit) ≤ L ∧ L < opts.unit * (L / opts.unit + 1)) ∧
    (opts.unit = 512 → ∀ L : Nat, L / opts.unit = L / 512) := by
  refine ⟨?_, ?_, ?_⟩
  · unfold zbd_print_zone
    simp only [hz, hu, hcsv, if_true, if_false]
    unfold u32
    rw [Nat.mod_eq_of_lt hidx, Nat.mod_eq_of_lt htype]
  · intro L
    have hpos : 0 < opts.unit := Nat.pos_of_ne_zero hu
    exact ⟨Nat.mul_div_le L opts.unit, Nat.lt_mul_div_succ L hpos⟩
  · intro h L
    rw [h]

theorem csv_zone_line_witness :
    (csv_opts 1000 (2 ^ 28)).unit ≠ 0 ∧
    zbd_print_zone (csv_opts 1000 (2 ^ 28)) (sample_zone (2 ^ 28) 3) =
      some (Out.zone_csv 3 2 805306 268435 268435 805306 1 0 0) :=
  ⟨by decide,
    (csv_zone_line (csv_opts 1000 (2 ^ 28)) (sample_zone (2 ^ 28) 3)
      (by decide) (by decide) (by decide) (by decide) (by decide)).1⟩

/-- C11 as stated fails: the unit 0 passes the unit check of `main` and
`zbd_print_zone` has no line to print for it (division by zero); and with
zones of 512 bytes the zone that starts at byte 2^41 has zone number 2^32,
which the `unsigned int` zone number prints as 0. -/
theorem csv_zone_line_counterexample :
    unit_rejected (csv_opts 0 (2 ^ 28)) = false ∧
    zbd_print_zone (csv_opts 0 (2 ^ 28)) (sample_zone (2 ^ 28) 3) = none ∧
    unit_rejected (csv_opts 1 512) = false ∧
    (sample_zone 512 (2 ^ 32)).start / (csv_opts 1 512).dev_info.zone_size = 2 ^ 32 ∧
    zbd_print_zone (csv_opts 1 512) (sample_zone 512 (2 ^ 32)) =
      some (Out.zone_csv 0 2 (2 ^ 41) 512 512 (2 ^ 41) 1 0 0) := by
  decide

theorem normalize_rep (o : zbd_opts) (cap : Int) :
    (normalize o cap).rep_opt = o.rep_opt ∧
      (normalize o cap).rep_num_zones = o.rep_num_zones := by
  unfold normalize
  simp only []
  split_ifs <;> exact ⟨rfl, rfl⟩

theorem main_device_action_report_queries (dev : Device) (opts : zbd_opts) (di : Bool)
    (h : 0 ≤ opened_fd dev opts) (hu : unit_rejected (opened dev opts) = false)
    (hs : sector_misaligned (opened dev opts) = false)
    (hc : opts.ofst < capacity (opened dev opts).dev_info) :
    report_queries (main_device dev opts di).trace =
      report_queries ((zact opts.cmd).action dev (opened_fd dev opts)
        (normalize (opened dev opts) (capacity (opened dev opts).dev_info))).trace := by
  rw [main_device_action dev opts di h hu hs hc]
  show report_queries (_ :: _) = _
  unfold report_queries
  rw [List.filter_cons]
  simp only [is_report_query, Bool.false_eq_true, if_false]
  have := main_action_report_queries dev (opened_fd dev opts)
    (normalize (opened dev opts) (capacity (opened dev opts).dev_info)) di
  rw [normalize_cmd] at this
  exact this

/-- C12: in count-only mode `zbd_report` makes the count query with the
offset, length and filter of the options and nothing else reaches the
device: when the query answers 0 the run is that call followed by the count
alone on `stdout` (the bare number in CSV mode, the count and the zone count
of the device otherwise) and the result is 0; when it answers anything else
the run is that call followed by the failure diagnostic, nothing is printed
and the result is 1.  The single report query of such a run of `main`, once
its checks passed, is this count query on the offset and the normalised
length. -/
theorem count_only_report (dev : Device) (fd : Int) (opts : zbd_opts)
    (hn : opts.rep_num_zones = true) :
    ((dev.zbd_report_nr_zones fd opts.ofst opts.len opts.rep_opt).1 = 0 →
      zbd_report dev fd opts = Run.mk (some 0)
        [Event.call (Call.zbd_report_nr_zones fd opts.ofst opts.len opts.rep_opt),
          Event.stdout (if opts.rep_csv = true
            then Out.nr_zones_csv (dev.zbd_report_nr_zones fd opts.ofst opts.len opts.rep_opt).2
            else Out.nr_zones (dev.zbd_report_nr_zones fd opts.ofst opts.len opts.rep_opt).2
              opts.dev_info.nr_zones)]) ∧
    ((dev.zbd_report_nr_zones fd opts.ofst opts.len opts.rep_opt).1 ≠ 0 →
      zbd_report dev fd opts = Run.mk (some 1)
        [Event.call (Call.zbd_report_nr_zones fd opts.ofst opts.len opts.rep_opt),
          Event.stderr (Diag.report_nr_zones_failed
            (dev.zbd_report_nr_zones fd opts.ofst opts.len opts.rep_opt).1)] ∧
      outputs (zbd_report dev fd opts).trace = []) ∧
    report_queries (zbd_report dev fd opts).trace =
      [Event.call (Call.zbd_report_nr_zones fd opts.ofst opts.len opts.rep_opt)] ∧
    transitions (zbd_report dev fd opts).trace = [] ∧
    (∀ (o : zbd_opts) (di : Bool), o.cmd = zbd_cmd.ZBD_REPORT → o.rep_num_zones = true →
      0 ≤ opened_fd dev o → unit_rejected (opened dev o) = false →
      sector_misaligned (opened dev o) = false →
      o.ofst < capacity (opened dev o).dev_info →
      report_queries (main_device dev o di).trace =
        [Event.call (Call.zbd_report_nr_zones (opened_fd dev o) o.ofst
          (normalize (opened dev o) (capacity (opened dev o).dev_info)).len o.rep_opt)]) := by
  have hq := zbd_report_queries_count dev fd opts hn
  have ht := zbd_report_transitions dev fd opts
  generalize hr : dev.zbd_report_nr_zones fd opts.ofst opts.len opts.rep_opt = r at *
  have heq : zbd_report dev fd opts =
      if r.1 ≠ 0 then
        Run.mk (some 1)
          [Event.call (Call.zbd_report_nr_zones fd opts.ofst opts.len opts.rep_opt),
            Event.stderr (Diag.report_nr_zones_failed r.1)]
      else if opts.rep_csv = true then
        Run.mk (some 0)
          [Event.call (Call.zbd_report_nr_zones fd opts.ofst opts.len opts.rep_opt),
            Event.stdout (Out.nr_zones_csv r.2)]
      else
        Run.mk (some 0)
          [Event.call (Call.zbd_report_nr_zones fd opts.ofst opts.len opts.rep_opt),
            Event.stdout (Out.nr_zones r.2 opts.dev_info.nr_zones)] := by
    unfold zbd_report
    simp only [hn, if_true, hr]
  refine ⟨?_, ?_, hq, ht, ?_⟩
  · intro h0
    rw [heq]
    simp only [h0, ne_eq, not_true_eq_false, if_false]
    split_ifs <;> rfl
  · intro h1
    rw [heq]
    simp only [h1, ne_eq, not_false_eq_true, if_true]
    exact ⟨trivial, rfl⟩
  · intro o di hcmd hno hfd hu hs hc
    rw [main_device_action_report_queries dev o di hfd hu hs hc]
    have hzact : (zact o.cmd).action = zbd_report := by
      rw [hcmd]
      rfl
    rw [hzact, zbd_report_queries_count dev _ _
      (by rw [(normalize_rep _ _).2]; exact hno)]
    rw [normalize_ofst, (normalize_rep _ _).1]
    rfl

theorem count_only_report_witness :
    (opened (sample_device (2 ^ 21) (2 ^ 28) 4 0)
      { sample_opts zbd_cmd.ZBD_REPORT 0 (2 ^ 30) with rep_num_zones := true }).rep_num_zones =
      true ∧
    zbd_report (sample_device (2 ^ 21) (2 ^ 28) 4 0) 3
      (opened (sample_device (2 ^ 21) (2 ^ 28) 4 0)
        { sample_opts zbd_cmd.ZBD_REPORT 0 (2 ^ 30) with rep_num_zones := true }) =
      Run.mk (some 0)
        [Event.call (Call.zbd_report_nr_zones 3 0 (2 ^ 30) zbd_report_option.ZBD_RO_ALL),
          Event.stdout (Out.nr_zones 4 4)] :=
  ⟨by decide,
    (count_only_report (sample_device (2 ^ 21) (2 ^ 28) 4 0) 3
      (opened (sample_device (2 ^ 21) (2 ^ 28) 4 0)
        { sample_opts zbd_cmd.ZBD_REPORT 0 (2 ^ 30) with rep_num_zones := true })
      (by decide)).1 (by decide)⟩

/-- C13, evaluated where it fails: with zones of 2^28 bytes on a device of
capacity 2^30, the report range of `zbd report -ofst 134217728 -len
268435456 /dev/x` is sector aligned, lies inside the device and touches two
zones (0 and 1); `zbd_report` asks for `ceil(len / zone_size) = 1`
descriptor, and only zone 0 is printed. -/
theorem report_descriptor_count_short :
    (512 : Int) ∣ strtoll "134217728" ∧ (512 : Int) ∣ strtoll "268435456" ∧
    strtoll "134217728" + strtoll "268435456" ≤ ((2 ^ 21 * 512 : Nat) : Int) ∧
    zones_touched 134217728 268435456 (2 ^ 28) 4 = 2 ∧
    (268435456 + 2 ^ 28 - 1) / 2 ^ 28 = 1 ∧
    report_queries (main (sample_device (2 ^ 21) (2 ^ 28) 4 0)
      ["zbd", "report", "-ofst", "134217728", "-len", "268435456", "/dev/x"]).trace =
      [Event.call (Call.zbd_report_zones 3 134217728 268435456
        zbd_report_option.ZBD_RO_ALL 1)] ∧
    zone_numbers (main (sample_device (2 ^ 21) (2 ^ 28) 4 0)
      ["zbd", "report", "-ofst", "134217728", "-len", "268435456", "/dev/x"]).trace = [0] := by
  decide

/-- C14, evaluated where it fails: when `zbd_open` fails with `-ENODEV`,
`main` returns 1 after the open call alone, and the diagnostic is the
generic "Open ... failed" one, not "not a zoned block device": the test
`ret == -ENODEV` reads `ret`, which still holds 1. -/
theorem open_failure_diagnostic :
    main (failing_device (-ENODEV)) ["zbd", "report", "/dev/x"] =
      Run.mk (some 1)
        [Event.call (Call.zbd_open "/dev/x" (OpenFlags.mk AccessMode.O_RDONLY true)),
          Event.stderr (Diag.open_failed "/dev/x")] := by
  decide

/-- C15, evaluated where it fails: `zbd report -u 0 /dev/x` gives the unit
0, the unit check of `main` accepts it, the zones are queried, and the run
stops in the division by the unit when the first zone is printed. -/
theorem unit_zero_accepted :
    u64 (strtoll "0") = 0 ∧
    unit_rejected (csv_opts 0 (2 ^ 28)) = false ∧
    main (sample_device (2 ^ 21) (2 ^ 28) 4 0) ["zbd", "report", "-u", "0", "/dev/x"] =
      Run.mk none
        [Event.call (Call.zbd_open "/dev/x" (OpenFlags.mk AccessMode.O_RDONLY true)),
          Event.call (Call.zbd_report_zones 3 0 1073741824 zbd_report_option.ZBD_RO_ALL 4)] := by
  decide

/-- C16, evaluated where it fails: on a device of capacity 2^30 with zones
of 2^28 bytes, `zbd report -ofst -1024 -len 1024 /dev/x` passes the sector
check with an offset below the capacity and the report query is made on the
range that starts 1024 bytes before the device; `zbd open -len -268435456
/dev/x` passes every check and the open request is made with a negative
length. -/
theorem range_outside_device :
    (512 : Int) ∣ strtoll "-1024" ∧ strtoll "-1024" < ((2 ^ 21 * 512 : Nat) : Int) ∧
    main (sample_device (2 ^ 21) (2 ^ 28) 4 0)
      ["zbd", "report", "-ofst", "-1024", "-len", "1024", "/dev/x"] =
      Run.mk (some 0)
        [Event.call (Call.zbd_open "/dev/x" (OpenFlags.mk AccessMode.O_RDONLY true)),
          Event.call (Call.zbd_report_zones 3 (-1024) 1024 zbd_report_option.ZBD_RO_ALL 1),
          Event.stdout (Out.zone_seq 0 2 0 268435456 268435456 0 1 0 0),
          Event.call (Call.zbd_close 3)] ∧
    main (sample_device (2 ^ 21) (2 ^ 28) 4 0)
      ["zbd", "open", "-len", "-268435456", "/dev/x"] =
      Run.mk (some 0)
        [Event.call (Call.zbd_open "/dev/x" (OpenFlags.mk AccessMode.O_RDWR true)),
          Event.call (Call.zbd_open_zones 3 0 (-268435456)),
          Event.call (Call.zbd_close 3)] := by
  decide

/-- What holds of C16: for an offset in `[0, capacity)` and a non-negative
length whose sums stay in the range of a `long long`, the normalised range
lies inside the device. -/
theorem normalize_inside_device (o : zbd_opts) (cap : Int)
    (h0 : 0 ≤ o.ofst) (hc : o.ofst < cap) (hcap : o.ofst + cap < 2 ^ 63)
    (hl : 0 ≤ o.len) (hsum : o.ofst + o.len < 2 ^ 63) :
    0 ≤ (normalize o cap).ofst ∧ 0 < (normalize o cap).len ∧
      (normalize o cap).ofst + (normalize o cap).len ≤ cap := by
  rw [normalize_eq_spec o cap h0 hc hcap (by omega) hsum]
  show 0 ≤ o.ofst ∧ 0 < spec_normalized_len cap o.ofst o.len ∧
    o.ofst + spec_normalized_len cap o.ofst o.len ≤ cap
  unfold spec_normalized_len
  split_ifs <;> omega

/-- What holds of C13: for a range that starts on a zone boundary,
`ceil(len / zone_size)` is an upper bound on the number of zones the range
touches. -/
theorem zones_touched_le_of_aligned (k len zs n : Nat) (hz : 0 < zs) :
    zones_touched (k * zs) len zs n ≤ (len + zs - 1) / zs := by
  unfold zones_touched
  have hsub : (Finset.filter
      (fun i => i * zs < k * zs + len ∧ k * zs < (i + 1) * zs) (Finset.range n)) ⊆
      Finset.Ico k (k + (len + zs - 1) / zs) := by
    intro i hi
    rw [Finset.mem_filter] at hi
    rw [Finset.mem_Ico]
    obtain ⟨_, h1, h2⟩ := hi
    have hk : k < i + 1 := Nat.lt_of_mul_lt_mul_right h2
    refine ⟨by omega, ?_⟩
    by_contra hge
    have hge2 : k + (len + zs - 1) / zs ≤ i := Nat.le_of_not_lt hge
    have hmul : (k + (len + zs - 1) / zs) * zs ≤ i * zs := Nat.mul_le_mul_right zs hge2
    rw [Nat.add_mul] at hmul
    have hdiv : len + zs - 1 < ((len + zs - 1) / zs + 1) * zs := by
      rw [Nat.mul_comm]
      exact Nat.lt_mul_div_succ _ hz
    rw [Nat.add_mul, Nat.one_mul] at hdiv
    omega
  have hcard := Finset.card_le_card hsub
  rw [Nat.card_Ico, Nat.add_sub_cancel_left] at hcard
  have hlen : ((List.range n).filter
      (fun i => decide (i * zs < k * zs + len ∧ k * zs < (i + 1) * zs))).length =
      (Finset.filter
        (fun i => i * zs < k * zs + len ∧ k * zs < (i + 1) * zs) (Finset.range n)).card := by
    rw [Finset.card_def, Finset.filter_val, Finset.range_val, Multiset.range,
      Multiset.filter_coe, Multiset.coe_card]
  rw [hlen]
  exact hcard

theorem wrap64_lt (x : Int) : wrap64 x < 2 ^ 63 := by
  unfold wrap64
  omega

theorem normalize_len_lt (o : zbd_opts) (cap : Int) (hcap : cap < 2 ^ 63)
    (hl : o.len < 2 ^ 63) : (normalize o cap).len < 2 ^ 63 := by
  have hw := wrap64_lt (cap - o.ofst)
  unfold normalize
  simp only []
  split_ifs
  · exact hw
  · exact hcap
  · exact hw
  · exact hl

theorem normalize_len_bounds (o : zbd_opts) (cap : Int)
    (h0 : 0 ≤ o.ofst) (hc : o.ofst < cap) (hcap : cap < 2 ^ 63)
    (hl : 0 ≤ o.len) (hsum : o.ofst + o.len < 2 ^ 63) :
    0 < (normalize o cap).len ∧ (normalize o cap).len ≤ cap := by
  have hd : wrap64 (cap - o.ofst) = cap - o.ofst := by
    apply wrap64_eq <;> omega
  have hw : wrap64 (o.ofst + o.len) = o.ofst + o.len := by
    apply wrap64_eq <;> omega
  unfold normalize
  simp only []
  split_ifs with h1 h2 h2
  · show 0 < wrap64 (cap - o.ofst) ∧ wrap64 (cap - o.ofst) ≤ cap
    rw [hd]
    omega
  · show 0 < cap ∧ cap ≤ cap
    omega
  · show 0 < wrap64 (cap - o.ofst) ∧ wrap64 (cap - o.ofst) ≤ cap
    rw [hd]
    omega
  · rw [hw] at h2
    omega

/-- C4, as the code has it: on a device that opened with a geometry that
satisfies the data-model invariant, for a unit that passed its check and a
request whose offset and length are multiples of 512, with
`0 ≤ offset < capacity` and a length in the range of a `long long`, write
`nlen` for the length `main` hands to the action (the capacity for a length
of 0, then `capacity - offset` for a range that ends after the capacity;
the reference normalisation when the sums do not overflow).  When the
offset is not a multiple of the zone size, or `nlen` is non-negative and not
a multiple of the zone size, a management command (reset, open, close,
finish) returns 1 with the "Invalid unaligned offset/length" diagnostic and
requests no zone operation, whatever the requested length; the report
command with the same offset and length passes the checks of `main` and
runs the report action on the offset and `nlen`: it makes the count query
in count-only mode and, for a non-negative length whose sum with the offset
does not overflow, the descriptor query when the allocation succeeds. -/
theorem zone_misaligned (dev : Device) (opts : zbd_opts) (di : Bool)
    (hfd : 0 ≤ opened_fd dev opts)
    (hu : unit_rejected (opened dev opts) = false)
    (hg : geometry_invariant (opened dev opts).dev_info)
    (ho : (512 : Int) ∣ opts.ofst) (hl : (512 : Int) ∣ opts.len)
    (h0 : 0 ≤ opts.ofst)
    (hc : opts.ofst < capacity (opened dev opts).dev_info)
    (hlr : opts.len < 2 ^ 63)
    (hmis : ¬ (((opened dev opts).dev_info.zone_size : Nat) : Int) ∣ opts.ofst ∨
      (0 ≤ (normalize (opened dev opts) (capacity (opened dev opts).dev_info)).len ∧
        ¬ (((opened dev opts).dev_info.zone_size : Nat) : Int) ∣
          (normalize (opened dev opts) (capacity (opened dev opts).dev_info)).len)) :
    (opts.cmd ≠ zbd_cmd.ZBD_REPORT →
      main_device dev opts di = Run.mk (some 1)
        (Event.call (Call.zbd_open opts.dev_path (open_flags opts.cmd)) ::
          (if di then zbd_print_dev_info
            (normalize (opened dev opts) (capacity (opened dev opts).dev_info)) else []) ++
          [Event.stderr Diag.unaligned, Event.call (Call.zbd_close (opened_fd dev opts))]) ∧
      transitions (main_device dev opts di).trace = []) ∧
    (opts.cmd = zbd_cmd.ZBD_REPORT →
      main_device dev opts di =
        Run.mk (main_action dev (opened_fd dev opts)
            (normalize (opened dev opts) (capacity (opened dev opts).dev_info)) di).ret
          (Event.call (Call.zbd_open opts.dev_path (open_flags opts.cmd)) ::
            (main_action dev (opened_fd dev opts)
              (normalize (opened dev opts) (capacity (opened dev opts).dev_info)) di).trace) ∧
      (zact opts.cmd).action = zbd_report ∧
      transitions (main_device dev opts di).trace = [] ∧
      (opts.rep_num_zones = true →
        report_queries (main_device dev opts di).trace =
          [Event.call (Call.zbd_report_nr_zones (opened_fd dev opts) opts.ofst
            (normalize (opened dev opts) (capacity (opened dev opts).dev_info)).len
            opts.rep_opt)]) ∧
      (opts.rep_num_zones = false → 0 ≤ opts.len → opts.ofst + opts.len < 2 ^ 63 →
        dev.calloc_ok (report_nz
          (normalize (opened dev opts) (capacity (opened dev opts).dev_info)).len
          (opened dev opts).dev_info.zone_size) = true →
        report_queries (main_device dev opts di).trace =
          [Event.call (Call.zbd_report_zones (opened_fd dev opts) opts.ofst
            (normalize (opened dev opts) (capacity (opened dev opts).dev_info)).len
            opts.rep_opt
            (report_nz
              (normalize (opened dev opts) (capacity (opened dev opts).dev_info)).len
              (opened dev opts).dev_info.zone_size))])) ∧
    (-(2 ^ 63) ≤ opts.len → opts.ofst + opts.len < 2 ^ 63 →
      opts.ofst + capacity (opened dev opts).dev_info < 2 ^ 63 →
      (normalize (opened dev opts) (capacity (opened dev opts).dev_info)).len =
        spec_normalized_len (capacity (opened dev opts).dev_info) opts.ofst opts.len) := by
  obtain ⟨hz, hzs, hcap, hnr, hinv⟩ := hg
  have hs : sector_misaligned (opened dev opts) = false :=
    (sector_aligned_iff _).mpr ⟨ho, hl⟩
  have hceq := capacity_eq _ hcap
  have hcaplt : capacity (opened dev opts).dev_info < 2 ^ 63 := by
    rw [hceq]
    omega
  have hmain := main_device_action dev opts di hfd hu hs hc
  have htr := main_device_action_transitions dev opts di hfd hu hs hc
  have hrq := main_device_action_report_queries dev opts di hfd hu hs hc
  have hnlt := normalize_len_lt (opened dev opts) (capacity (opened dev opts).dev_info)
    hcaplt hlr
  have hnofst := normalize_ofst (opened dev opts) (capacity (opened dev opts).dev_info)
  have hninfo := normalize_dev_info (opened dev opts) (capacity (opened dev opts).dev_info)
  have hncmd := normalize_cmd (opened dev opts) (capacity (opened dev opts).dev_info)
  have hnrep := normalize_rep (opened dev opts) (capacity (opened dev opts).dev_info)
  generalize hnv : normalize (opened dev opts) (capacity (opened dev opts).dev_info) = o at *
  have hofst : o.ofst = opts.ofst := hnofst
  have hinfo : o.dev_info = (opened dev opts).dev_info := hninfo
  have hcmdo : o.cmd = opts.cmd := hncmd
  refine ⟨?_, ?_, ?_⟩
  · intro hcmd
    have hm : u64 o.ofst % o.dev_info.zone_size ≠ 0 ∨ u64 o.len % o.dev_info.zone_size ≠ 0 := by
      rw [hofst, hinfo]
      rcases hmis with h | ⟨hn0, h⟩
      · left
        intro hcon
        exact h ((u64_mod_eq_zero_iff opts.ofst _ h0 (by omega)).mp hcon)
      · right
        intro hcon
        exact h ((u64_mod_eq_zero_iff o.len _ hn0 (by omega)).mp hcon)
    have hact := main_action_mgmt_misaligned dev (opened_fd dev opts) o di
      (by rw [hcmdo]; exact hcmd) (by rw [hinfo]; omega) hm
    constructor
    · rw [hmain, hact]
      simp only [List.cons_append]
    · rw [htr, zact_action_mgmt opts.cmd hcmd,
        zbd_mgmt_misaligned dev _ o (by rw [hinfo]; omega) hm]
      simp [transitions, is_transition]
  · intro hcmd
    have hzact : (zact opts.cmd).action = zbd_report := by
      rw [hcmd]
      rfl
    refine ⟨hmain, hzact, ?_, ?_, ?_⟩
    · rw [htr, hzact]
      exact zbd_report_transitions dev _ _
    · intro hn
      rw [hrq, hzact, zbd_report_queries_count dev _ o (by rw [hnrep.2]; exact hn),
        hofst, hnrep.1]
      exact congrArg (fun x => [Event.call (Call.zbd_report_nr_zones (opened_fd dev opts)
        opts.ofst o.len x)]) (Eq.refl opts.rep_opt)
    · intro hn hl0 hsum hm
      have hb := normalize_len_bounds (opened dev opts) (capacity (opened dev opts).dev_info)
        h0 hc hcaplt hl0 hsum
      rw [hnv] at hb
      have hle : o.len.toNat ≤
          (opened dev opts).dev_info.nr_zones * (opened dev opts).dev_info.zone_size := by
        have := hb.2
        rw [hceq] at this
        omega
      have hnz := report_nz_eq o.len (opened dev opts).dev_info.zone_size
        (opened dev opts).dev_info.nr_zones hb.1 hnlt hz hzs hle hnr
      rw [hrq, hzact, zbd_report_queries_zones dev _ o (by rw [hnrep.2]; exact hn)
        (by rw [hinfo]; omega) (by rw [hinfo]; omega) (by rw [hinfo]; exact hm),
        hofst, hnrep.1, hinfo]
      exact congrArg (fun x => [Event.call (Call.zbd_report_zones (opened_fd dev opts)
        opts.ofst o.len x (report_nz o.len (opened dev opts).dev_info.zone_size))])
        (Eq.refl opts.rep_opt)
  · intro hlo hsum hcs
    rw [← hnv, normalize_eq_spec (opened dev opts) _ h0 hc hcs hlo hsum]
    rfl

theorem zone_misaligned_witness :
    (512 : Int) ∣ 104857600 ∧ ¬ ((2 ^ 28 : Nat) : Int) ∣ 104857600 ∧
    geometry_invariant (zbd_info.mk (2 ^ 21) (2 ^ 28) 4 []) ∧
    main_device (sample_device (2 ^ 21) (2 ^ 28) 4 0)
      (sample_opts zbd_cmd.ZBD_RESET 104857600 104857600) false =
      Run.mk (some 1)
        [Event.call (Call.zbd_open "/dev/x" (OpenFlags.mk AccessMode.O_RDWR true)),
          Event.stderr Diag.unaligned,
          Event.call (Call.zbd_close 3)] ∧
    main_device (sample_device (2 ^ 21) (2 ^ 28) 4 0)
      (sample_opts zbd_cmd.ZBD_RESET 104857600 0) false =
      Run.mk (some 1)
        [Event.call (Call.zbd_open "/dev/x" (OpenFlags.mk AccessMode.O_RDWR true)),
          Event.stderr Diag.unaligned,
          Event.call (Call.zbd_close 3)] :=
  ⟨by decide, by decide, by decide,
    ((zone_misaligned (sample_device (2 ^ 21) (2 ^ 28) 4 0)
      (sample_opts zbd_cmd.ZBD_RESET 104857600 104857600) false
      (by decide) (by decide) (by decide) (by decide) (by decide) (by decide) (by decide)
      (by decide) (by decide)).1 (by decide)).1,
    ((zone_misaligned (sample_device (2 ^ 21) (2 ^ 28) 4 0)
      (sample_opts zbd_cmd.ZBD_RESET 104857600 0) false
      (by decide) (by decide) (by decide) (by decide) (by decide) (by decide) (by decide)
      (by decide) (by decide)).1 (by decide)).1⟩

/-- C4 as stated fails: with zones of 2^28 bytes on a device of capacity
2^30, `zbd reset -len 1073742336 /dev/x` has a length that is a multiple of
512 and not of the zone size; the length is cut to the capacity, the zone
check passes and the reset is requested for the whole device. -/
theorem zone_misaligned_counterexample :
    (512 : Int) ∣ strtoll "1073742336" ∧
    ¬ ((2 ^ 28 : Nat) : Int) ∣ strtoll "1073742336" ∧
    main (sample_device (2 ^ 21) (2 ^ 28) 4 0)
      ["zbd", "reset", "-len", "1073742336", "/dev/x"] =
      Run.mk (some 0)
        [Event.call (Call.zbd_open "/dev/x" (OpenFlags.mk AccessMode.O_RDWR true)),
          Event.call (Call.zbd_reset_zones 3 0 1073741824),
          Event.call (Call.zbd_close 3)] := by
  decide

end Zbd
